import Mathlib

/-!
# Verification of the weekly NAV invoice export (`main.py`)

A shallow embedding of the data model and operations of the invoice-export
program, together with theorems settling the specification's claims.

Machine integers are modelled as `Nat`/`Int` with explicit `% 2 ^ 64` where the
source's hash arithmetic wraps; fallible Python code is modelled with
`Option`/`Except`.
-/

/-! ## 64-bit word arithmetic (the wrap-around arithmetic used by SHA-512) -/

def w64 : Nat := 2 ^ 64

def add64 (a b : Nat) : Nat := (a + b) % w64

/-- Rotate a 64-bit word right by `k` bits. -/
def rotr64 (k x : Nat) : Nat := (x / 2 ^ k + x % 2 ^ k * 2 ^ (64 - k)) % w64

/-- Logical shift right by `k` bits. -/
def shr64 (k x : Nat) : Nat := x / 2 ^ k

/-- Bitwise complement within 64 bits. -/
def not64 (x : Nat) : Nat := Nat.xor x (w64 - 1)

/-! ## SHA-512 (FIPS 180-4), the digest behind `password_hash`

`main.py` line 81 calls `hashlib.sha512`; the algorithm is embedded here in
full: padding, message schedule, 80 compression rounds, big-endian emission. -/

/-- The eight working variables of the SHA-512 compression function. -/
structure SHAState where
  a : Nat
  b : Nat
  c : Nat
  d : Nat
  e : Nat
  f : Nat
  g : Nat
  h : Nat
  deriving Repr, DecidableEq

/-- Integer `e`-th root by bisection on a fuel bound (structural recursion,
so it reduces in the kernel): maintains `lo ^ e ≤ n < hi ^ e`. -/
def rootGo (e : Nat) : Nat → Nat → Nat → Nat → Nat
  | 0, lo, _, _ => lo
  | f + 1, lo, hi, n =>
      if hi ≤ lo + 1 then lo
      else
        let mid := (lo + hi) / 2
        if mid ^ e ≤ n then rootGo e f mid hi n else rootGo e f lo mid n

/-- `⌊n ^ (1/e)⌋`. -/
def natRoot (e n : Nat) : Nat := rootGo e 300 0 (n + 1) n

/-- Trial-division primality (the constants only need primes below 500). -/
def isPrimeSimple (n : Nat) : Bool :=
  2 ≤ n && (((List.range n).drop 2).all fun d => n % d != 0)

def firstPrimesAux : Nat → Nat → List Nat → List Nat
  | 0, _, acc => acc.reverse
  | f + 1, c, acc =>
      if acc.length == 80 then acc.reverse
      else firstPrimesAux f (c + 1) (if isPrimeSimple c then c :: acc else acc)

/-- The first 80 primes, 2 … 409. -/
def first80Primes : List Nat := firstPrimesAux 500 2 []

/-- SHA-512 initial hash value: the first 64 fractional-part bits of the
square roots of the first eight primes (FIPS 180-4 §5.3.5),
`⌊√p · 2^64⌋ mod 2^64 = ⌊√(p · 2^128)⌋ mod 2^64`.  Validated end to end by
`sha512_abc_test_vector`. -/
def sha512H0 (i : Nat) : Nat := natRoot 2 (first80Primes.getD i 0 * 2 ^ 128) % w64

def sha512init : SHAState :=
  ⟨sha512H0 0, sha512H0 1, sha512H0 2, sha512H0 3,
   sha512H0 4, sha512H0 5, sha512H0 6, sha512H0 7⟩

/-- SHA-512 round constants: the first 64 fractional-part bits of the cube
roots of the first 80 primes (FIPS 180-4 §4.2.3),
`⌊p^(1/3) · 2^64⌋ mod 2^64 = ⌊(p · 2^192)^(1/3)⌋ mod 2^64`. -/
def sha512K : List Nat :=
  first80Primes.map fun p => natRoot 3 (p * 2 ^ 192) % w64

def bigSigma0 (x : Nat) : Nat := Nat.xor (Nat.xor (rotr64 28 x) (rotr64 34 x)) (rotr64 39 x)

def bigSigma1 (x : Nat) : Nat := Nat.xor (Nat.xor (rotr64 14 x) (rotr64 18 x)) (rotr64 41 x)

def smallSigma0 (x : Nat) : Nat := Nat.xor (Nat.xor (rotr64 1 x) (rotr64 8 x)) (shr64 7 x)

def smallSigma1 (x : Nat) : Nat := Nat.xor (Nat.xor (rotr64 19 x) (rotr64 61 x)) (shr64 6 x)

def chFn (x y z : Nat) : Nat := Nat.xor (Nat.land x y) (Nat.land (not64 x) z)

def majFn (x y z : Nat) : Nat :=
  Nat.xor (Nat.xor (Nat.land x y) (Nat.land x z)) (Nat.land y z)

/-- Big-endian byte emission of `v` on `n` bytes. -/
def bytesBE : Nat → Nat → List Nat
  | 0, _ => []
  | n + 1, v => bytesBE n (v / 256) ++ [v % 256]

/-- Group a byte list into 64-bit big-endian words (8 bytes per word). -/
def toWords64 : List Nat → List Nat
  | b0 :: b1 :: b2 :: b3 :: b4 :: b5 :: b6 :: b7 :: rest =>
      (((((((b0 * 256 + b1) * 256 + b2) * 256 + b3) * 256 + b4) * 256 + b5) * 256 + b6)
        * 256 + b7) :: toWords64 rest
  | _ => []

/-- One step of extending the message schedule by a word. -/
def scheduleStep (ws : List Nat) : List Nat :=
  let n := ws.length
  ws ++ [add64 (add64 (smallSigma1 (ws.getD (n - 2) 0)) (ws.getD (n - 7) 0))
             (add64 (smallSigma0 (ws.getD (n - 15) 0)) (ws.getD (n - 16) 0))]

/-- The 80-word message schedule of one block. -/
def schedule (block : List Nat) : List Nat :=
  (List.range 64).foldl (fun acc _ => scheduleStep acc) (toWords64 block)

/-- One SHA-512 compression round, for round constant `k` and schedule word `w`. -/
def sha512round (st : SHAState) (kw : Nat × Nat) : SHAState :=
  let t1 := add64 (add64 (add64 st.h (bigSigma1 st.e)) (add64 (chFn st.e st.f st.g) kw.1)) kw.2
  let t2 := add64 (bigSigma0 st.a) (majFn st.a st.b st.c)
  ⟨add64 t1 t2, st.a, st.b, st.c, add64 st.d t1, st.e, st.f, st.g⟩

/-- Compress one 128-byte block into the running hash state. -/
def sha512block (H : SHAState) (block : List Nat) : SHAState :=
  let st := (sha512K.zip (schedule block)).foldl sha512round H
  ⟨add64 H.a st.a, add64 H.b st.b, add64 H.c st.c, add64 H.d st.d,
   add64 H.e st.e, add64 H.f st.f, add64 H.g st.g, add64 H.h st.h⟩

/-- SHA-512 padding: `0x80`, zeros to 112 mod 128, then the bit length on
16 big-endian bytes. -/
def sha512pad (msg : List Nat) : List Nat :=
  let zeros := (128 - (msg.length + 17) % 128) % 128
  msg ++ 0x80 :: List.replicate zeros 0 ++ bytesBE 16 (msg.length * 8)

/-- Split a byte list into 128-byte blocks (structural recursion on a length
bound so the definition reduces in the kernel). -/
def chunksAux : Nat → List Nat → List (List Nat)
  | 0, _ => []
  | _, [] => []
  | fuel + 1, l => l.take 128 :: chunksAux fuel (l.drop 128)

/-- Split a byte list into 128-byte blocks. -/
def chunks128 (l : List Nat) : List (List Nat) :=
  chunksAux l.length l

/-- The SHA-512 digest (64 bytes) of a byte message. -/
def sha512 (msg : List Nat) : List Nat :=
  let st := (chunks128 (sha512pad msg)).foldl sha512block sha512init
  bytesBE 8 st.a ++ bytesBE 8 st.b ++ bytesBE 8 st.c ++ bytesBE 8 st.d ++
  bytesBE 8 st.e ++ bytesBE 8 st.f ++ bytesBE 8 st.g ++ bytesBE 8 st.h

/-! ## Hex encoding and UTF-8 -/

/-- Uppercase hexadecimal digit for a value `< 16`. -/
def hexDigitU (n : Nat) : Char :=
  if n < 10 then Char.ofNat (48 + n) else Char.ofNat (55 + n)

/-- Uppercase hex string of a byte list: two digits per byte.  Python's
`.hexdigest().upper()` produces exactly the uppercase digits of each byte. -/
def hexUpper (bs : List Nat) : String :=
  String.mk (bs.map (fun b => [hexDigitU (b / 16), hexDigitU (b % 16)])).flatten

/-- UTF-8 encoding of one character (what Python's `str.encode()` does per
code point). -/
def utf8EncodeChar (c : Char) : List Nat :=
  let n := c.toNat
  if n < 0x80 then [n]
  else if n < 0x800 then [0xC0 + n / 64, 0x80 + n % 64]
  else if n < 0x10000 then [0xE0 + n / 4096, 0x80 + n / 64 % 64, 0x80 + n % 64]
  else [0xF0 + n / 0x40000, 0x80 + n / 4096 % 64, 0x80 + n / 64 % 64, 0x80 + n % 64]

/-- UTF-8 byte encoding of a string (`password.encode()` in `main.py`). -/
def utf8Encode (s : String) : List Nat :=
  (s.data.map utf8EncodeChar).flatten

/-- `password_hash` (main.py line 80): uppercase hex SHA-512 of the UTF-8
encoded password. -/
def password_hash (password : String) : String :=
  hexUpper (sha512 (utf8Encode password))

/-! ### Structural facts about the digest -/

theorem bytesBE_length (n v : Nat) : (bytesBE n v).length = n := by
  induction n generalizing v with
  | zero => rfl
  | succ n ih => simp [bytesBE, ih]

theorem bytesBE_lt (n v : Nat) : ∀ x ∈ bytesBE n v, x < 256 := by
  induction n generalizing v with
  | zero => simp [bytesBE]
  | succ n ih =>
      intro x hx
      simp only [bytesBE, List.mem_append, List.mem_singleton] at hx
      rcases hx with h | h
      · exact ih _ _ h
      · subst h; omega

/-- Every SHA-512 digest is exactly 64 bytes. -/
theorem sha512_length (msg : List Nat) : (sha512 msg).length = 64 := by
  simp [sha512, bytesBE_length]

/-- Every byte of a SHA-512 digest is below 256. -/
theorem sha512_bytes_lt (msg : List Nat) : ∀ x ∈ sha512 msg, x < 256 := by
  intro x hx
  simp only [sha512, List.mem_append] at hx
  rcases hx with ((((((h | h) | h) | h) | h) | h) | h) | h <;> exact bytesBE_lt _ _ _ h

/-- A character is an uppercase hexadecimal digit: `0`–`9` or `A`–`F`. -/
def isUpperHexDigit (c : Char) : Bool :=
  (48 ≤ c.toNat && c.toNat ≤ 57) || (65 ≤ c.toNat && c.toNat ≤ 70)

theorem hexDigitU_isUpperHex {x : Nat} (h : x < 16) : isUpperHexDigit (hexDigitU x) := by
  interval_cases x <;> decide

theorem hexUpper_length (bs : List Nat) : (hexUpper bs).length = 2 * bs.length := by
  simp only [hexUpper, String.length]
  induction bs with
  | nil => rfl
  | cons b t ih => simp_all [List.flatten]; omega

theorem hexUpper_chars (bs : List Nat) (hb : ∀ b ∈ bs, b < 256) :
    ∀ c ∈ (hexUpper bs).data, isUpperHexDigit c := by
  simp only [hexUpper]
  intro c hc
  rw [List.mem_flatten] at hc
  obtain ⟨l, hl, hcl⟩ := hc
  rw [List.mem_map] at hl
  obtain ⟨b, hb', rfl⟩ := hl
  have hb0 : b < 256 := hb b hb'
  simp only [List.mem_cons, List.not_mem_nil, or_false] at hcl
  rcases hcl with rfl | rfl
  · exact hexDigitU_isUpperHex (by omega)
  · exact hexDigitU_isUpperHex (by omega)

set_option maxRecDepth 10000 in
/-- Sanity check against the FIPS 180-4 test vector: SHA-512 of `"abc"`. -/
theorem sha512_abc_test_vector :
    sha512 (utf8Encode "abc") =
      [0xdd, 0xaf, 0x35, 0xa1, 0x93, 0x61, 0x7a, 0xba, 0xcc, 0x41, 0x73, 0x49, 0xae, 0x20,
       0x41, 0x31, 0x12, 0xe6, 0xfa, 0x4e, 0x89, 0xa9, 0x7e, 0xa2, 0x0a, 0x9e, 0xee, 0xe6,
       0x4b, 0x55, 0xd3, 0x9a, 0x21, 0x92, 0x99, 0x2a, 0x27, 0x4f, 0xc1, 0xa8, 0x36, 0xba,
       0x3c, 0x23, 0xa3, 0xfe, 0xeb, 0xbd, 0x45, 0x4d, 0x44, 0x23, 0x64, 0x3c, 0xe8, 0x0e,
       0x2a, 0x9a, 0xc9, 0x4f, 0xa5, 0x4c, 0xa4, 0x9f] := by
  decide

/-- C8: `password_hash` is deterministic (a function of the UTF-8 encoding of
the password alone) and returns the uppercase hexadecimal SHA-512 digest of the
UTF-8-encoded password — a string of exactly 128 uppercase hexadecimal
characters. -/
theorem C8_password_hash_uppercase_sha512_hex128 (p : String) :
    password_hash p = hexUpper (sha512 (utf8Encode p)) ∧
    (password_hash p).length = 128 ∧
    (∀ c ∈ (password_hash p).data, isUpperHexDigit c) ∧
    (∀ q : String, utf8Encode q = utf8Encode p → password_hash q = password_hash p) := by
  refine ⟨rfl, ?_, ?_, ?_⟩
  · rw [password_hash, hexUpper_length, sha512_length]
  · exact hexUpper_chars _ (sha512_bytes_lt _)
  · intro q hq; rw [password_hash, password_hash, hq]

/-- Witness for C8 at the concrete password `"abc"`. -/
theorem C8_password_hash_witness :
    (password_hash "abc").length = 128 ∧
    (∀ c ∈ (password_hash "abc").data, isUpperHexDigit c) :=
  ⟨(C8_password_hash_uppercase_sha512_hex128 "abc").2.1,
   (C8_password_hash_uppercase_sha512_hex128 "abc").2.2.1⟩

/-! ## `masked_timestamp` (main.py lines 75–77)

The source runs `datetime.datetime.strptime(dt_iso, "%Y-%m-%dT%H:%M:%SZ")`
followed by `.strftime("%Y%m%d%H%M%S")`.  CPython's `_strptime` compiles the
format into the regular expression (compiled with `re.IGNORECASE`, so the
literals `T` and `Z` also match `t` and `z`)

  `(?P<Y>\d\d\d\d)-(?P<m>1[0-2]|0[1-9]|[1-9])-`
  `(?P<d>3[0-1]|[1-2]\d|0[1-9]|[1-9]| [1-9])T(?P<H>2[0-3]|[0-1]\d|\d):`
  `(?P<M>[0-5]\d|\d):(?P<S>6[0-1]|[0-5]\d|\d)Z`

matches it with `re.match` (alternatives tried left to right, with
backtracking), raises `ValueError` when there is no match or when the match
leaves unconverted trailing data, and then calls the `datetime` constructor,
which raises `ValueError` when the matched fields are not a valid timestamp
(year 0, day beyond the month's length, leap seconds 60–61).  `strftime`
zero-pads `%m %d %H %M %S` to two digits; glibc's `%Y` prints the year in
decimal without padding.  A raised `ValueError` is modelled as `none`. -/

/-- The match data of the strptime regular expression: the six captured
fields and the unconsumed remainder of the input. -/
structure TMatch where
  y : Nat
  mo : Nat
  d : Nat
  h : Nat
  mi : Nat
  s : Nat
  rest : List Char
  deriving Repr, DecidableEq

def isDigitChar (c : Char) : Bool := 48 ≤ c.toNat && c.toNat ≤ 57

def digitVal (c : Char) : Nat := c.toNat - 48

def digitChar : Nat → Char
  | 0 => '0' | 1 => '1' | 2 => '2' | 3 => '3' | 4 => '4'
  | 5 => '5' | 6 => '6' | 7 => '7' | 8 => '8' | _ => '9'

/-- First-success choice, the backtracking of a regex alternation. -/
def oelse (a : Option TMatch) (b : Unit → Option TMatch) : Option TMatch :=
  match a with
  | some v => some v
  | none => b ()

/-- `\d\d\d\d` (the `%Y` group). -/
def pY (cs : List Char) (k : Nat → List Char → Option TMatch) : Option TMatch :=
  match cs with
  | c1 :: c2 :: c3 :: c4 :: rest =>
      if isDigitChar c1 && isDigitChar c2 && isDigitChar c3 && isDigitChar c4 then
        k (digitVal c1 * 1000 + digitVal c2 * 100 + digitVal c3 * 10 + digitVal c4) rest
      else none
  | _ => none

/-- `1[0-2]|0[1-9]|[1-9]` (the `%m` group). -/
def pMo (cs : List Char) (k : Nat → List Char → Option TMatch) : Option TMatch :=
  oelse
    (match cs with
     | c1 :: c2 :: rest =>
        if c1 == '1' && 48 ≤ c2.toNat && c2.toNat ≤ 50 then k (10 + digitVal c2) rest else none
     | _ => none)
    (fun _ => oelse
      (match cs with
       | c1 :: c2 :: rest =>
          if c1 == '0' && 49 ≤ c2.toNat && c2.toNat ≤ 57 then k (digitVal c2) rest else none
       | _ => none)
      (fun _ =>
        match cs with
        | c1 :: rest =>
            if 49 ≤ c1.toNat && c1.toNat ≤ 57 then k (digitVal c1) rest else none
        | _ => none))

/-- `3[0-1]|[1-2]\d|0[1-9]|[1-9]| [1-9]` (the `%d` group). -/
def pDay (cs : List Char) (k : Nat → List Char → Option TMatch) : Option TMatch :=
  oelse
    (match cs with
     | c1 :: c2 :: rest =>
        if c1 == '3' && 48 ≤ c2.toNat && c2.toNat ≤ 49 then k (30 + digitVal c2) rest else none
     | _ => none)
    (fun _ => oelse
      (match cs with
       | c1 :: c2 :: rest =>
          if 49 ≤ c1.toNat && c1.toNat ≤ 50 && isDigitChar c2 then
            k (digitVal c1 * 10 + digitVal c2) rest
          else none
       | _ => none)
      (fun _ => oelse
        (match cs with
         | c1 :: c2 :: rest =>
            if c1 == '0' && 49 ≤ c2.toNat && c2.toNat ≤ 57 then k (digitVal c2) rest else none
         | _ => none)
        (fun _ => oelse
          (match cs with
           | c1 :: rest =>
              if 49 ≤ c1.toNat && c1.toNat ≤ 57 then k (digitVal c1) rest else none
           | _ => none)
          (fun _ =>
            match cs with
            | c1 :: c2 :: rest =>
                if c1 == ' ' && 49 ≤ c2.toNat && c2.toNat ≤ 57 then k (digitVal c2) rest
                else none
            | _ => none))))

/-- `2[0-3]|[0-1]\d|\d` (the `%H` group). -/
def pHour (cs : List Char) (k : Nat → List Char → Option TMatch) : Option TMatch :=
  oelse
    (match cs with
     | c1 :: c2 :: rest =>
        if c1 == '2' && 48 ≤ c2.toNat && c2.toNat ≤ 51 then k (20 + digitVal c2) rest else none
     | _ => none)
    (fun _ => oelse
      (match cs with
       | c1 :: c2 :: rest =>
          if 48 ≤ c1.toNat && c1.toNat ≤ 49 && isDigitChar c2 then
            k (digitVal c1 * 10 + digitVal c2) rest
          else none
       | _ => none)
      (fun _ =>
        match cs with
        | c1 :: rest => if isDigitChar c1 then k (digitVal c1) rest else none
        | _ => none))

/-- `[0-5]\d|\d` (the `%M` group). -/
def pMin (cs : List Char) (k : Nat → List Char → Option TMatch) : Option TMatch :=
  oelse
    (match cs with
     | c1 :: c2 :: rest =>
        if 48 ≤ c1.toNat && c1.toNat ≤ 53 && isDigitChar c2 then
          k (digitVal c1 * 10 + digitVal c2) rest
        else none
     | _ => none)
    (fun _ =>
      match cs with
      | c1 :: rest => if isDigitChar c1 then k (digitVal c1) rest else none
      | _ => none)

/-- `6[0-1]|[0-5]\d|\d` (the `%S` group). -/
def pSec (cs : List Char) (k : Nat → List Char → Option TMatch) : Option TMatch :=
  oelse
    (match cs with
     | c1 :: c2 :: rest =>
        if c1 == '6' && 48 ≤ c2.toNat && c2.toNat ≤ 49 then k (60 + digitVal c2) rest else none
     | _ => none)
    (fun _ => oelse
      (match cs with
       | c1 :: c2 :: rest =>
          if 48 ≤ c1.toNat && c1.toNat ≤ 53 && isDigitChar c2 then
            k (digitVal c1 * 10 + digitVal c2) rest
          else none
       | _ => none)
      (fun _ =>
        match cs with
        | c1 :: rest => if isDigitChar c1 then k (digitVal c1) rest else none
        | _ => none))

/-- A literal character of the format; `re.IGNORECASE` makes a letter match
its other case as well, so the accepted alternatives are passed explicitly. -/
def pLit (a b : Char) (cs : List Char) (k : List Char → Option TMatch) : Option TMatch :=
  match cs with
  | c :: rest => if c == a || c == b then k rest else none
  | _ => none

/-- The full regex match of the format `%Y-%m-%dT%H:%M:%SZ` against an input
(what `re.match` returns inside `_strptime`). -/
def strptimeMatch (cs : List Char) : Option TMatch :=
  pY cs fun y cs =>
    pLit '-' '-' cs fun cs =>
      pMo cs fun mo cs =>
        pLit '-' '-' cs fun cs =>
          pDay cs fun d cs =>
            pLit 'T' 't' cs fun cs =>
              pHour cs fun h cs =>
                pLit ':' ':' cs fun cs =>
                  pMin cs fun mi cs =>
                    pLit ':' ':' cs fun cs =>
                      pSec cs fun s cs =>
                        pLit 'Z' 'z' cs fun rest =>
                          some ⟨y, mo, d, h, mi, s, rest⟩

def isLeapYear (y : Nat) : Bool := (y % 4 == 0 && y % 100 != 0) || y % 400 == 0

/-- Length of a month, as the `datetime` constructor checks it. -/
def daysInMonth (y m : Nat) : Nat :=
  if m == 2 then (if isLeapYear y then 29 else 28)
  else if m == 4 || m == 6 || m == 9 || m == 11 then 30
  else 31

/-- Decimal digits of a natural number, most significant first, no padding
(structural recursion on a bound so it reduces in the kernel). -/
def natDigitsAux : Nat → Nat → List Char
  | 0, _ => []
  | fuel + 1, n =>
      if n < 10 then [digitChar n] else natDigitsAux fuel (n / 10) ++ [digitChar (n % 10)]

/-- Decimal digits of a natural number (what glibc `%Y` emits: no padding). -/
def natDigits (n : Nat) : List Char := natDigitsAux (n + 1) n

/-- Two decimal digits, zero padded (`%m %d %H %M %S` of `strftime`). -/
def pad2 (n : Nat) : List Char := [digitChar (n / 10), digitChar (n % 10)]

/-- `masked_timestamp` (main.py line 75): strptime with format
`%Y-%m-%dT%H:%M:%SZ`, then strftime `%Y%m%d%H%M%S`; `none` models the
`ValueError` raised on a failed parse or an invalid timestamp. -/
def masked_timestamp (dt_iso : String) : Option String :=
  match strptimeMatch dt_iso.data with
  | none => none
  | some m =>
      if m.rest ≠ [] then none
      else if m.y < 1 ∨ m.d > daysInMonth m.y m.mo ∨ 59 < m.s then none
      else some (String.mk
        (natDigits m.y ++ pad2 m.mo ++ pad2 m.d ++ pad2 m.h ++ pad2 m.mi ++ pad2 m.s))

/-! ### Facts about `masked_timestamp` -/

/-- The exact textual pattern stated by the spec: `YYYY-MM-DDTHH:MM:SSZ`,
every field zero-padded, uppercase `T` and `Z` (this definition follows the
spec's words, to be compared with the behaviour of the source). -/
def matchesSpecPattern (s : String) : Bool :=
  match s.data with
  | [y1, y2, y3, y4, a1, m1, m2, a2, d1, d2, t, h1, h2, b1, i1, i2, b2, s1, s2, z] =>
      isDigitChar y1 && isDigitChar y2 && isDigitChar y3 && isDigitChar y4 &&
      a1 == '-' && isDigitChar m1 && isDigitChar m2 && a2 == '-' &&
      isDigitChar d1 && isDigitChar d2 && t == 'T' &&
      isDigitChar h1 && isDigitChar h2 && b1 == ':' &&
      isDigitChar i1 && isDigitChar i2 && b2 == ':' &&
      isDigitChar s1 && isDigitChar s2 && z == 'Z'
  | _ => false

/-- Four decimal digits, zero padded (the year as it appears in a
strictly-formatted input). -/
def pad4 (n : Nat) : List Char :=
  [digitChar (n / 1000), digitChar (n / 100 % 10), digitChar (n / 10 % 10), digitChar (n % 10)]

/-- A strictly zero-padded `YYYY-MM-DDTHH:MM:SSZ` character sequence. -/
def strictISO (y mo d h mi s : Nat) : List Char :=
  pad4 y ++ '-' :: (pad2 mo ++ '-' :: (pad2 d ++ 'T' ::
    (pad2 h ++ ':' :: (pad2 mi ++ ':' :: (pad2 s ++ ['Z'])))))

theorem digitChar_toNat {n : Nat} (h : n < 10) : (digitChar n).toNat = 48 + n := by
  interval_cases n <;> decide

theorem isDigitChar_digitChar {n : Nat} (h : n < 10) : isDigitChar (digitChar n) = true := by
  interval_cases n <;> decide

theorem digitVal_digitChar {n : Nat} (h : n < 10) : digitVal (digitChar n) = n := by
  interval_cases n <;> decide

theorem pY_pad4 {y : Nat} (h1 : 1000 ≤ y) (h2 : y ≤ 9999) {rest : List Char}
    {k : Nat → List Char → Option TMatch} {v : TMatch} (hk : k y rest = some v) :
    pY (pad4 y ++ rest) k = some v := by
  have hy3 : y / 1000 < 10 := by omega
  have hy2 : y / 100 % 10 < 10 := by omega
  have hy1 : y / 10 % 10 < 10 := by omega
  have hy0 : y % 10 < 10 := by omega
  simp only [pad4, List.cons_append, List.nil_append, pY,
    isDigitChar_digitChar hy3, isDigitChar_digitChar hy2,
    isDigitChar_digitChar hy1, isDigitChar_digitChar hy0,
    digitVal_digitChar hy3, digitVal_digitChar hy2,
    digitVal_digitChar hy1, digitVal_digitChar hy0,
    Bool.and_self, if_true]
  have : y / 1000 * 1000 + y / 100 % 10 * 100 + y / 10 % 10 * 10 + y % 10 = y := by omega
  rw [this, hk]

theorem pLit_here {a : Char} (b : Char) {rest : List Char}
    {k : List Char → Option TMatch} {v : TMatch} (hk : k rest = some v) :
    pLit a b (a :: rest) k = some v := by
  simp [pLit, hk]

theorem pMo_pad2 {mo : Nat} (h1 : 1 ≤ mo) (h2 : mo ≤ 12) {rest : List Char}
    {k : Nat → List Char → Option TMatch} {v : TMatch} (hk : k mo rest = some v) :
    pMo (pad2 mo ++ rest) k = some v := by
  interval_cases mo <;> simp +decide [pMo, pad2, digitChar, oelse, digitVal, hk]

theorem pDay_pad2 {d : Nat} (h1 : 1 ≤ d) (h2 : d ≤ 31) {rest : List Char}
    {k : Nat → List Char → Option TMatch} {v : TMatch} (hk : k d rest = some v) :
    pDay (pad2 d ++ rest) k = some v := by
  interval_cases d <;> simp +decide [pDay, pad2, digitChar, oelse, digitVal, isDigitChar, hk]

theorem pHour_pad2 {h : Nat} (h2 : h ≤ 23) {rest : List Char}
    {k : Nat → List Char → Option TMatch} {v : TMatch} (hk : k h rest = some v) :
    pHour (pad2 h ++ rest) k = some v := by
  interval_cases h <;> simp +decide [pHour, pad2, digitChar, oelse, digitVal, isDigitChar, hk]

theorem pMin_pad2 {mi : Nat} (h2 : mi ≤ 59) {rest : List Char}
    {k : Nat → List Char → Option TMatch} {v : TMatch} (hk : k mi rest = some v) :
    pMin (pad2 mi ++ rest) k = some v := by
  interval_cases mi <;> simp +decide [pMin, pad2, digitChar, oelse, digitVal, isDigitChar, hk]

theorem pSec_pad2 {s : Nat} (h2 : s ≤ 59) {rest : List Char}
    {k : Nat → List Char → Option TMatch} {v : TMatch} (hk : k s rest = some v) :
    pSec (pad2 s ++ rest) k = some v := by
  interval_cases s <;> simp +decide [pSec, pad2, digitChar, oelse, digitVal, isDigitChar, hk]

/-- The strptime regex matches a strictly padded input and captures exactly
its six fields. -/
theorem strptimeMatch_strictISO {y mo d h mi s : Nat}
    (hy1 : 1000 ≤ y) (hy2 : y ≤ 9999) (hmo1 : 1 ≤ mo) (hmo2 : mo ≤ 12)
    (hd1 : 1 ≤ d) (hd2 : d ≤ 31) (hh : h ≤ 23) (hmi : mi ≤ 59) (hs : s ≤ 59) :
    strptimeMatch (strictISO y mo d h mi s) = some ⟨y, mo, d, h, mi, s, []⟩ := by
  show pY _ _ = _
  exact pY_pad4 hy1 hy2 (pLit_here '-' (pMo_pad2 hmo1 hmo2 (pLit_here '-'
    (pDay_pad2 hd1 hd2 (pLit_here 't' (pHour_pad2 hh (pLit_here ':'
      (pMin_pad2 hmi (pLit_here ':' (pSec_pad2 hs (pLit_here 'z' rfl)))))))))))

theorem natDigitsAux_unfold (fuel n : Nat) (h : n < fuel) :
    natDigitsAux fuel n =
      if n < 10 then [digitChar n]
      else natDigitsAux (fuel - 1) (n / 10) ++ [digitChar (n % 10)] := by
  cases fuel with
  | zero => omega
  | succ f => simp [natDigitsAux]

/-- On four-digit years the unpadded `%Y` emission coincides with the
zero-padded four digits. -/
theorem natDigits_eq_pad4 {y : Nat} (h1 : 1000 ≤ y) (h2 : y ≤ 9999) :
    natDigits y = pad4 y := by
  rw [natDigits, natDigitsAux_unfold _ _ (by omega), if_neg (by omega),
      natDigitsAux_unfold _ _ (by omega), if_neg (by omega),
      natDigitsAux_unfold _ _ (by omega), if_neg (by omega),
      natDigitsAux_unfold _ _ (by omega), if_pos (by omega)]
  have e3 : y / 10 / 10 / 10 = y / 1000 := by omega
  have e2 : y / 10 / 10 % 10 = y / 100 % 10 := by omega
  simp [pad4, e3, e2]

theorem daysInMonth_le_31 (y m : Nat) : daysInMonth y m ≤ 31 := by
  unfold daysInMonth
  split
  · split <;> omega
  · split <;> omega

/-- C7 (amended): every strictly padded `YYYY-MM-DDTHH:MM:SSZ` rendering of a
valid timestamp with a four-significant-digit year is mapped to the
corresponding 14-digit `YYYYMMDDHHMMSS` string, and such inputs match the
spec's exact pattern.  The spec's converse — failure on every input outside
the exact pattern — is refuted by `C7_masked_timestamp_counterexample`:
strptime's compiled regex is lenient (unpadded fields, lowercase literals),
and years below 1000 are emitted by glibc's `%Y` without padding, shorter
than 14 digits. -/
theorem C7_masked_timestamp_amended (y mo d h mi s : Nat)
    (hy1 : 1000 ≤ y) (hy2 : y ≤ 9999) (hmo1 : 1 ≤ mo) (hmo2 : mo ≤ 12)
    (hd1 : 1 ≤ d) (hd2 : d ≤ daysInMonth y mo) (hh : h ≤ 23) (hmi : mi ≤ 59)
    (hs : s ≤ 59) :
    masked_timestamp (String.mk (strictISO y mo d h mi s)) =
      some (String.mk (pad4 y ++ pad2 mo ++ pad2 d ++ pad2 h ++ pad2 mi ++ pad2 s)) ∧
    (String.mk (pad4 y ++ pad2 mo ++ pad2 d ++ pad2 h ++ pad2 mi ++ pad2 s)).length = 14 ∧
    matchesSpecPattern (String.mk (strictISO y mo d h mi s)) = true := by
  have hd31 : d ≤ 31 := le_trans hd2 (daysInMonth_le_31 y mo)
  have hm : strptimeMatch (String.mk (strictISO y mo d h mi s)).data =
      some ⟨y, mo, d, h, mi, s, []⟩ :=
    strptimeMatch_strictISO hy1 hy2 hmo1 hmo2 hd1 hd31 hh hmi hs
  refine ⟨?_, ?_, ?_⟩
  · simp only [masked_timestamp, hm]
    rw [if_neg (by simp), if_neg ?_, natDigits_eq_pad4 hy1 hy2]
    rintro (hbad | hbad | hbad) <;> omega
  · simp [String.length, pad4, pad2]
  · have c1 : y / 1000 < 10 := by omega
    have c2 : y / 100 % 10 < 10 := by omega
    have c3 : y / 10 % 10 < 10 := by omega
    have c4 : y % 10 < 10 := by omega
    have c5 : mo / 10 < 10 := by omega
    have c6 : mo % 10 < 10 := by omega
    have c7 : d / 10 < 10 := by omega
    have c8 : d % 10 < 10 := by omega
    have c9 : h / 10 < 10 := by omega
    have c10 : h % 10 < 10 := by omega
    have c11 : mi / 10 < 10 := by omega
    have c12 : mi % 10 < 10 := by omega
    have c13 : s / 10 < 10 := by omega
    have c14 : s % 10 < 10 := by omega
    simp [matchesSpecPattern, strictISO, pad4, pad2,
      isDigitChar_digitChar c1, isDigitChar_digitChar c2, isDigitChar_digitChar c3,
      isDigitChar_digitChar c4, isDigitChar_digitChar c5, isDigitChar_digitChar c6,
      isDigitChar_digitChar c7, isDigitChar_digitChar c8, isDigitChar_digitChar c9,
      isDigitChar_digitChar c10, isDigitChar_digitChar c11, isDigitChar_digitChar c12,
      isDigitChar_digitChar c13, isDigitChar_digitChar c14]

/-- C7 witness: the spec's own example, `2024-01-08T00:00:00Z`. -/
theorem C7_masked_timestamp_witness :
    masked_timestamp (String.mk (strictISO 2024 1 8 0 0 0)) =
      some (String.mk (pad4 2024 ++ pad2 1 ++ pad2 8 ++ pad2 0 ++ pad2 0 ++ pad2 0)) ∧
    (String.mk (pad4 2024 ++ pad2 1 ++ pad2 8 ++ pad2 0 ++ pad2 0 ++ pad2 0)).length = 14 ∧
    matchesSpecPattern (String.mk (strictISO 2024 1 8 0 0 0)) = true :=
  C7_masked_timestamp_amended 2024 1 8 0 0 0 (by decide) (by decide) (by decide)
    (by decide) (by decide) (by decide) (by decide) (by decide) (by decide)

/-- C7 counterexample: the claim "fails if and only if the input does not
match the exact pattern" is false on the code.  `2024-1-08T00:00:00Z` does not
match the exact `YYYY-MM-DDTHH:MM:SSZ` pattern (one-digit month) yet
`masked_timestamp` succeeds on it; and the exactly-patterned
`0005-01-08T00:00:00Z` succeeds but yields an 11-character string, not the
14-digit form. -/
theorem C7_masked_timestamp_counterexample :
    (matchesSpecPattern "2024-1-08T00:00:00Z" = false ∧
      masked_timestamp "2024-1-08T00:00:00Z" = some "20240108000000") ∧
    (matchesSpecPattern "0005-01-08T00:00:00Z" = true ∧
      masked_timestamp "0005-01-08T00:00:00Z" = some "50108000000" ∧
      ("50108000000" : String).length ≠ 14) :=
  ⟨⟨by rfl, by rfl⟩, ⟨by rfl, by rfl, by decide⟩⟩

/-! ## XML documents and `parse_response` (main.py lines 299–326)

An XML element carries a (namespace-qualified) tag, optional text content and
a list of child elements.  To keep all recursion structural (and hence
kernel-computable), the child list is represented as a sibling-linked forest:
`XForest.node tag text children sibs` is an element followed by its following
siblings.  `ElementTree`'s textual parsing (`ET.fromstring`) is not embedded;
functions that consume a response body take it as a parameter
`fromstring : String → Except PyError XElem` (it may fail: malformed XML
raises `ParseError`). -/

/-- A Python exception, abstracted as its `args` tuple of strings. -/
structure PyError where
  args : List String
  deriving DecidableEq, Repr

/-- A forest of XML elements: an element (tag, text, children) together with
its following siblings, in document order. -/
inductive XForest where
  | nil : XForest
  | node (tag : String) (text : Option String) (children : XForest) (sibs : XForest) : XForest
  deriving DecidableEq, Repr

/-- One XML element. -/
structure XElem where
  tag : String
  text : Option String
  children : XForest
  deriving DecidableEq, Repr

/-- The NAV API namespace (main.py line 300). -/
def NS_API : String := "http://schemas.nav.gov.hu/OSA/3.0/api"

/-- An ElementTree namespace-qualified tag, `{uri}local`. -/
def qualTag (uri localName : String) : String := "\x7b" ++ uri ++ "\x7d" ++ localName

/-- The NAV-API-qualified tag used in the `.//{NS_API}tag` search paths. -/
def navTag (localName : String) : String := qualTag NS_API localName

/-- All elements of the forest with the given tag, in document order —
the `.//tag` descendant search of `ElementTree.findall`. -/
def XForest.findAll (t : String) : XForest → List XElem
  | .nil => []
  | .node tg tx c n =>
      (if tg == t then [⟨tg, tx, c⟩] else []) ++ XForest.findAll t c ++ XForest.findAll t n

/-- The direct children of an element, in document order. -/
def XForest.childList : XForest → List XElem
  | .nil => []
  | .node tg tx c n => ⟨tg, tx, c⟩ :: XForest.childList n

/-- `root.findtext(".//tag", default)`: the text of the first matching
descendant; an element with no text yields `""`; no element yields the
default. -/
def findtextD (root : XElem) (t dflt : String) : String :=
  match XForest.findAll t root.children with
  | [] => dflt
  | e :: _ => e.text.getD ""

/-- Python whitespace characters stripped by `int()`. -/
def isPyWS (c : Char) : Bool :=
  c == ' ' || c == '\t' || c == '\n' || c == '\r' || c == (Char.ofNat 11) || c == (Char.ofNat 12)

/-- Decimal digits with optional single underscores between digits (the tail
of CPython's `int()` grammar); `acc` is the value of the digits read so far. -/
def pyDigitsU (acc : Nat) : List Char → Option Nat
  | [] => some acc
  | c :: cs =>
      if isDigitChar c then pyDigitsU (acc * 10 + digitVal c) cs
      else if c == '_' then
        match cs with
        | d :: cs2 => if isDigitChar d then pyDigitsU (acc * 10 + digitVal d) cs2 else none
        | [] => none
      else none

/-- The body of `int(str)`: optional sign then digits (underscore-grouped). -/
def pyIntCore (cs : List Char) : Option Int :=
  match cs with
  | '+' :: d :: rest => if isDigitChar d then (pyDigitsU (digitVal d) rest).map Int.ofNat else none
  | '-' :: d :: rest =>
      if isDigitChar d then (pyDigitsU (digitVal d) rest).map (fun n => -(n : Int)) else none
  | d :: rest => if isDigitChar d then (pyDigitsU (digitVal d) rest).map Int.ofNat else none
  | [] => none

/-- Python's `int(str)`: strip whitespace, optional sign, underscore-grouped
digits; raises `ValueError` otherwise (the message is modelled without the
`repr` quoting of the offending string). -/
def pyInt (st : String) : Except PyError Int :=
  match pyIntCore ((st.data.dropWhile isPyWS).reverse.dropWhile isPyWS).reverse with
  | some n => .ok n
  | none => .error ⟨["invalid literal for int() with base 10: " ++ st]⟩

/-- A parsed digest record: the Python dict built for one `invoiceDigest`
element (insertion-ordered association list, later duplicate keys overwrite
the value in place). -/
abbrev PRow := List (String × Option String)

/-- Python dict insertion: an existing key keeps its position and gets the
new value; a new key is appended. -/
def dictInsert : PRow → String → Option String → PRow
  | [], k, v => [(k, v)]
  | (k0, v0) :: rest, k, v =>
      if k0 == k then (k0, v) :: rest else (k0, v0) :: dictInsert rest k v

/-- `tag.split("}", 1)[-1]`: everything after the first closing brace, or the
whole tag when there is none. -/
def dropThroughBrace : List Char → Option (List Char)
  | [] => none
  | c :: cs => if c == Char.ofNat 125 then some cs else dropThroughBrace cs

/-- Strip the `{namespace}` prefix from a tag (main.py line 321). -/
def stripNs (t : String) : String :=
  match dropThroughBrace t.data with
  | some cs => String.mk cs
  | none => t

/-- The record dict of one `invoiceDigest` element: iterate its children,
mapping stripped tag to text (main.py lines 317–323). -/
def rowOfDigest (inv : XElem) : PRow :=
  inv.children.childList.foldl (fun r c => dictInsert r (stripNs c.tag) c.text) []

/-- The rows extracted from all `invoiceDigest` descendants of a response. -/
def digestRows (root : XElem) : List PRow :=
  (XForest.findAll (navTag "invoiceDigest") root.children).map rowOfDigest

/-- `parse_response` (main.py lines 299–326): returns
`(rows, current_page, available_page)`; the page counters default to `"1"`
when the element is absent and go through `int()`, whose `ValueError`
propagates; `fromstring` abstracts `ET.fromstring`. -/
def parse_response (fromstring : String → Except PyError XElem) (xml_text : String) :
    Except PyError (List PRow × Int × Int) :=
  match fromstring xml_text with
  | .error e => .error e
  | .ok root =>
      match pyInt (findtextD root (navTag "currentPage") "1") with
      | .error e => .error e
      | .ok current_page =>
          match pyInt (findtextD root (navTag "availablePage") "1") with
          | .error e => .error e
          | .ok available_page => .ok (digestRows root, current_page, available_page)

/-! ## The pandas data model

A DataFrame is its ordered column list plus its rows; a row is an
insertion-ordered association list from column name to cell.  Reading a
column a row does not carry yields the null cell, as pandas does after
`reindex`/`concat` alignment. -/

/-- A cell value: null (`NaN`/`NaT`/`None`), a string, a date
(`pd.to_datetime` result) or a number (`pd.to_numeric` result). -/
inductive Cell where
  | na : Cell
  | s (v : String) : Cell
  | dt (y m d : Nat) : Cell
  | num (q : Rat) : Cell
  deriving DecidableEq, Repr

abbrev Row := List (String × Cell)

structure DataFrame where
  cols : List String
  rows : List Row
  deriving DecidableEq, Repr

/-- Reading a cell: the row's value at the column, null when absent. -/
def lookupCell (r : Row) (c : String) : Cell := (List.lookup c r).getD .na

/-- Set a key in a row, keeping its position; append when new. -/
def assocSet : Row → String → Cell → Row
  | [], k, v => [(k, v)]
  | (k0, v0) :: rest, k, v =>
      if k0 == k then (k0, v) :: rest else (k0, v0) :: assocSet rest k v

/-- A parsed text value as a DataFrame cell (`None` becomes null). -/
def cellOfPy : Option String → Cell
  | some t => .s t
  | none => .na

/-- `pd.DataFrame(records)`: columns are the record keys in first-seen order;
one row per record. -/
def DataFrame.fromRecords (rs : List PRow) : DataFrame :=
  ⟨rs.foldl (fun cs r =>
      r.foldl (fun cs kv => if cs.contains kv.1 then cs else cs ++ [kv.1]) cs) [],
   rs.map (fun r => r.map (fun kv => (kv.1, cellOfPy kv.2)))⟩

/-- `df[c] = v`: add or overwrite a column with a constant value. -/
def DataFrame.setCol (df : DataFrame) (c : String) (v : Cell) : DataFrame :=
  ⟨if df.cols.contains c then df.cols else df.cols ++ [c],
   df.rows.map (fun r => assocSet r c v)⟩

/-- `df.reindex(columns=cs)`: exactly the requested columns, in order; a
column the frame lacks reads as null. -/
def DataFrame.reindex (df : DataFrame) (cs : List String) : DataFrame :=
  ⟨cs, df.rows.map (fun r => cs.map (fun c => (c, lookupCell r c)))⟩

/-- `df[cols] = df[cols].apply(f)`: map `f` over the cells of the named
columns. -/
def DataFrame.applyCols (df : DataFrame) (cs : List String) (f : Cell → Cell) : DataFrame :=
  ⟨df.cols,
   df.rows.map (fun r => r.map (fun kv => if cs.contains kv.1 then (kv.1, f kv.2) else kv))⟩

/-- `pd.concat([a, b], ignore_index=True)`: rows of `a` then rows of `b`;
columns of `a` then the new columns of `b`. -/
def DataFrame.concat (a b : DataFrame) : DataFrame :=
  ⟨a.cols ++ b.cols.filter (fun c => !a.cols.contains c), a.rows ++ b.rows⟩

/-! ### Column coercions (main.py lines 45–65, 456–457) -/

def OUTPUT_COLUMNS : List String :=
  ["invoiceIssueDate", "invoiceNumber", "supplierName", "invoiceDeliveryDate",
   "paymentDate", "source", "currency", "invoiceNetAmount", "comment"]

def DATE_COLUMNS : List String :=
  ["invoiceIssueDate", "invoiceDeliveryDate", "paymentDate"]

def NUMERIC_COLUMNS : List String := ["invoiceNetAmount"]

/-- Parse an ISO `YYYY-MM-DD` date (the format NAV emits; `pd.to_datetime`
accepts further formats, abstracted here — the claims only rely on
parse-or-null). -/
def dateParse (v : String) : Option (Nat × Nat × Nat) :=
  match v.data with
  | [y1, y2, y3, y4, a1, m1, m2, a2, d1, d2] =>
      if isDigitChar y1 && isDigitChar y2 && isDigitChar y3 && isDigitChar y4 &&
         a1 == '-' && isDigitChar m1 && isDigitChar m2 && a2 == '-' &&
         isDigitChar d1 && isDigitChar d2 then
        let y := digitVal y1 * 1000 + digitVal y2 * 100 + digitVal y3 * 10 + digitVal y4
        let m := digitVal m1 * 10 + digitVal m2
        let d := digitVal d1 * 10 + digitVal d2
        if 1 ≤ m && m ≤ 12 && 1 ≤ d && d ≤ daysInMonth y m then some (y, m, d) else none
      else none
  | _ => none

/-- Decimal number grammar: digits, optional fraction, optional exponent
(a faithful-for-NAV-amounts fragment of Python's float/int grammar). -/
def numDigits (acc : Nat) : List Char → Option (Nat × List Char)
  | [] => some (acc, [])
  | c :: cs =>
      if isDigitChar c then numDigits (acc * 10 + digitVal c) cs else some (acc, c :: cs)

def numParseFrac (intPart : Nat) : List Char → Option Rat
  | [] => some (intPart : Rat)
  | '.' :: cs =>
      match cs with
      | [] => some (intPart : Rat)
      | _ =>
        match numDigits 0 cs with
        | some (fr, []) =>
            some ((intPart : Rat) + (fr : Rat) / ((10 : Rat) ^ (cs.length)))
        | _ => none
  | _ => none

/-- `pd.to_numeric`'s scalar parse on a string, `none` when unparseable. -/
def numParse (v : String) : Option Rat :=
  match v.data.dropWhile isPyWS with
  | '-' :: d :: cs =>
      if isDigitChar d then (numParseCore (d :: cs)).map Neg.neg else none
  | '+' :: d :: cs => if isDigitChar d then numParseCore (d :: cs) else none
  | d :: cs => if isDigitChar d then numParseCore (d :: cs) else none
  | [] => none
where
  numParseCore (cs : List Char) : Option Rat :=
    match numDigits 0 cs with
    | some (ip, rest) => numParseFrac ip (rest.reverse.dropWhile isPyWS).reverse
    | none => none

/-- `pd.to_datetime(·, errors="coerce")` on one cell: parse strings, null on
failure, pass nulls and already-converted values through. -/
def toDatetimeCell : Cell → Cell
  | .s v => match dateParse v with
            | some (y, m, d) => .dt y m d
            | none => .na
  | .na => .na
  | .dt y m d => .dt y m d
  | .num q => .num q

/-- `pd.to_numeric(·, errors="coerce")` on one cell: parse strings, null on
failure, pass nulls and already-converted values through. -/
def toNumericCell : Cell → Cell
  | .s v => match numParse v with
            | some q => .num q
            | none => .na
  | .na => .na
  | .dt y m d => .dt y m d
  | .num q => .num q

/-- The per-company dataframe transformation of `weekly_invoice_export`
(main.py lines 452–457): add the period columns, project onto
`OUTPUT_COLUMNS`, coerce date and numeric columns. -/
def transform_weekly (df : DataFrame) (period_from period_to : String) : DataFrame :=
  ((((df.setCol "period_from" (.s period_from)).setCol "period_to" (.s period_to)
    ).reindex OUTPUT_COLUMNS).applyCols DATE_COLUMNS toDatetimeCell
    ).applyCols NUMERIC_COLUMNS toNumericCell

/-! ## `upsert_company_excel` (main.py lines 393–413)

Drive lookup, download and `pd.read_excel` are abstracted into
`findFile : filename → folder_id → Option DataFrame`; the function returns
the dataframe written back together with the filename used. -/

def upsert_company_excel (findFile : String → String → Option DataFrame)
    (df_new : DataFrame) (company_code folder_id : String) : DataFrame × String :=
  let filename := company_code ++ "_invoices.xlsx"
  match findFile filename folder_id with
  | some df_existing => (DataFrame.concat df_existing df_new, filename)
  | none => (df_new, filename)

/-! ## `fetch_all_invoices` (main.py lines 330–374)

The request document built by `build_query_xml` is abstracted by its inputs
(request id, timestamp, company credentials, page, date range); its XML
serialization is a parameter `ser`.  The transport is a parameter
`env : Nat → HttpResp` giving the response to the `k`-th POST of the
company's loop; `uuid.uuid4().hex[:30]` and `utc_now_iso()` are modelled as
draw streams `ids` and `times` indexed by the same counter.  The loop carries
fuel (`none` = fuel exhausted, a model artifact — the source loop has no
bound). -/

structure Company where
  company_code : String
  nav_login : String
  nav_password : String
  nav_tax_number : String
  nav_signature_key : String
  nav_base_url : String
  target_folder_id : String
  active : Bool
  deriving DecidableEq, Repr

/-- The `build_query_xml` inputs that determine a request document
(main.py lines 225–294). -/
structure ReqDoc where
  request_id : String
  timestamp : String
  company : Company
  page : Nat
  date_from : String
  date_to : String
  deriving DecidableEq, Repr

/-- Python string slicing `s[:n]`: the first `n` characters (code points). -/
def pySlice (s : String) (n : Nat) : String := String.mk (s.data.take n)

/-- An HTTP response: status code and body text. -/
structure HttpResp where
  status_code : Nat
  text : String
  deriving DecidableEq, Repr

/-- An exception escaping `fetch_all_invoices`: the `RuntimeError("NAV HTTP
…", request_xml, response_text)` of line 361, or a propagated parse error. -/
inductive FetchErr where
  | http (msg : String) (request_xml : String) (response_text : String) : FetchErr
  | py (e : PyError) : FetchErr
  deriving DecidableEq, Repr

/-- The `args` tuple of the raised exception. -/
def FetchErr.toArgs : FetchErr → List String
  | .http msg req resp => [msg, req, resp]
  | .py e => e.args

/-- The successful result of `fetch_all_invoices`: the dataframe of all rows
plus the last request/response kept for diagnostics; `requests` additionally
logs every request issued, in order (observational, for the paging claims). -/
structure FetchOk where
  df : DataFrame
  last_request_xml : String
  last_response_text : String
  requests : List ReqDoc
  deriving DecidableEq, Repr

def mkReqDoc (ids times : Nat → String) (company : Company) (date_from date_to : String)
    (k : Nat) : ReqDoc :=
  ⟨ids k, times k, company, k + 1, date_from, date_to⟩

/-- The `while True` loop of `fetch_all_invoices`: page counter, draw
counter, accumulated rows and request log. -/
def fetchLoop (fromstring : String → Except PyError XElem) (ser : ReqDoc → String)
    (ids times : Nat → String) (env : Nat → HttpResp) (company : Company)
    (date_from date_to : String) :
    Nat → Nat → Nat → List PRow → List ReqDoc → Option (Except FetchErr FetchOk)
  | 0, _, _, _, _ => none
  | fuel + 1, page, k, all_rows, req_log =>
      let doc : ReqDoc := ⟨ids k, times k, company, page, date_from, date_to⟩
      let last_request_xml := ser doc
      let resp := env k
      let last_response_text := resp.text
      if resp.status_code ≠ 200 then
        some (.error (.http ("NAV HTTP " ++ toString resp.status_code)
          last_request_xml last_response_text))
      else
        match parse_response fromstring resp.text with
        | .error e => some (.error (.py e))
        | .ok (rows, current_page, available_page) =>
            let all_rows := all_rows ++ rows
            if available_page ≤ current_page then
              some (.ok ⟨DataFrame.fromRecords all_rows, last_request_xml,
                last_response_text, req_log ++ [doc]⟩)
            else
              fetchLoop fromstring ser ids times env company date_from date_to
                fuel (page + 1) (k + 1) all_rows (req_log ++ [doc])

/-- `fetch_all_invoices`: run the paging loop from page 1. -/
def fetch_all_invoices (fromstring : String → Except PyError XElem)
    (ser : ReqDoc → String) (ids times : Nat → String) (env : Nat → HttpResp)
    (company : Company) (date_from date_to : String) (fuel : Nat) :
    Option (Except FetchErr FetchOk) :=
  fetchLoop fromstring ser ids times env company date_from date_to fuel 1 0 [] []

/-! ## `weekly_invoice_export` (main.py lines 430–508)

The per-company environment bundles the company row with the effects its
processing consumes: transport responses, uuid and clock draws, and the
Drive lookup backing `upsert_company_excel`. -/

/-- One `RunLogEntry` (the dict appended to `log_rows`). -/
structure LogRow where
  company_code : String
  period_from : String
  period_to : String
  status : String
  invoice_count : Nat
  error : String
  request_xml : String
  nav_error_response : String
  processed_at : String
  deriving DecidableEq, Repr

/-- A file written back to Drive by `upsert_company_excel`. -/
structure UpsertRec where
  filename : String
  folder_id : String
  df : DataFrame
  deriving DecidableEq, Repr

/-- A company together with the effect environment its processing consumes. -/
structure CompanyEnv where
  company : Company
  env : Nat → HttpResp
  ids : Nat → String
  times : Nat → String
  now : String
  findFile : String → String → Option DataFrame

/-- The body of the per-company `try`/`except` (main.py lines 445–495):
either a SUCCESS log entry plus the upsert performed, or a FAILED log entry
built from the exception's `args` (snapshots truncated to 30000 characters
when present) and no upsert. -/
def runCompany (fromstring : String → Except PyError XElem) (ser : ReqDoc → String)
    (fuel : Nat) (period_from period_to : String) (ce : CompanyEnv) :
    Option (LogRow × Option UpsertRec) :=
  match fetch_all_invoices fromstring ser ce.ids ce.times ce.env ce.company
      period_from period_to fuel with
  | none => none
  | some (.error e) =>
      let args := e.toArgs
      some ({ company_code := ce.company.company_code
              period_from := period_from
              period_to := period_to
              status := "FAILED"
              invoice_count := 0
              error := args.getD 0 ""
              request_xml := if 3 ≤ args.length then pySlice (args.getD 1 "") 30000 else ""
              nav_error_response :=
                if 3 ≤ args.length then pySlice (args.getD 2 "") 30000 else ""
              processed_at := ce.now }, none)
  | some (.ok fo) =>
      let df := transform_weekly fo.df period_from period_to
      let (df_final, filename) :=
        upsert_company_excel ce.findFile df ce.company.company_code
          ce.company.target_folder_id
      some ({ company_code := ce.company.company_code
              period_from := period_from
              period_to := period_to
              status := "SUCCESS"
              invoice_count := df.rows.length
              error := ""
              request_xml := ""
              nav_error_response := ""
              processed_at := ce.now },
            some ⟨filename, ce.company.target_folder_id, df_final⟩)

/-- The company loop of `weekly_invoice_export`: one log row per company, in
order, collecting the upserts performed. -/
def processCompanies (fromstring : String → Except PyError XElem) (ser : ReqDoc → String)
    (fuel : Nat) (period_from period_to : String) :
    List CompanyEnv → Option (List LogRow × List UpsertRec)
  | [] => some ([], [])
  | ce :: rest => do
      let (row, up) ← runCompany fromstring ser fuel period_from period_to ce
      let (lrs, ups) ← processCompanies fromstring ser fuel period_from period_to rest
      some (row :: lrs, (up.toList) ++ ups)

/-- `weekly_invoice_export` (per-company phase): the run log, the datasets
persisted, and the HTTP result `({"status": "ok", "companies": n}, 200)`. -/
def weekly_invoice_export (fromstring : String → Except PyError XElem)
    (ser : ReqDoc → String) (fuel : Nat) (period_from period_to : String)
    (ces : List CompanyEnv) :
    Option (List LogRow × List UpsertRec × (String × Nat) × Nat) := do
  let (log_rows, ups) ← processCompanies fromstring ser fuel period_from period_to ces
  some (log_rows, ups, ("ok", log_rows.length), 200)

/-! ### C1: the merge is a pure append -/

/-- C1: for every company, the dataset written back by `upsert_company_excel`
under the company-derived filename is, when an existing dataset is found, the
existing rows in stored order followed by the new rows in fetch order — no row
removed, rewritten or deduplicated (counts add up row by row) — and, when no
existing dataset is found, exactly the new rows. -/
theorem C1_upsert_pure_append (findFile : String → String → Option DataFrame)
    (df_new : DataFrame) (code folder : String) :
    (upsert_company_excel findFile df_new code folder).2 = code ++ "_invoices.xlsx" ∧
    (∀ e, findFile (code ++ "_invoices.xlsx") folder = some e →
      (upsert_company_excel findFile df_new code folder).1.rows = e.rows ++ df_new.rows ∧
      (upsert_company_excel findFile df_new code folder).1.rows.length
        = e.rows.length + df_new.rows.length ∧
      (upsert_company_excel findFile df_new code folder).1.rows.take e.rows.length
        = e.rows ∧
      (upsert_company_excel findFile df_new code folder).1.rows.drop e.rows.length
        = df_new.rows ∧
      (∀ r : Row, (upsert_company_excel findFile df_new code folder).1.rows.count r
        = e.rows.count r + df_new.rows.count r)) ∧
    (findFile (code ++ "_invoices.xlsx") folder = none →
      (upsert_company_excel findFile df_new code folder).1 = df_new) := by
  refine ⟨?_, ?_, ?_⟩
  · cases h : findFile (code ++ "_invoices.xlsx") folder <;>
      simp [upsert_company_excel, h]
  · intro e he
    refine ⟨?_, ?_, ?_, ?_, fun r => ?_⟩ <;>
      simp [upsert_company_excel, he, DataFrame.concat, List.count_append]
  · intro h
    simp [upsert_company_excel, h]

/-- A concrete existing dataset of 10 rows. -/
def c1Existing : DataFrame :=
  ⟨["invoiceNumber"], (List.range 10).map (fun i => [("invoiceNumber", Cell.s (toString i))])⟩

/-- Four concrete new rows. -/
def c1New : DataFrame :=
  ⟨["invoiceNumber"],
   (List.range 4).map (fun i => [("invoiceNumber", Cell.s ("n" ++ toString i))])⟩

/-- A Drive containing exactly the existing dataset for `acme`. -/
def c1Drive (filename folder_id : String) : Option DataFrame :=
  if filename == "acme_invoices.xlsx" && folder_id == "folder1" then some c1Existing
  else none

/-- C1 witness: merging 10 existing rows with 4 new rows yields exactly the
14 rows, the original 10 first and unchanged. -/
theorem C1_upsert_witness :
    (upsert_company_excel c1Drive c1New "acme" "folder1").1.rows
      = c1Existing.rows ++ c1New.rows ∧
    (upsert_company_excel c1Drive c1New "acme" "folder1").1.rows.length = 10 + 4 ∧
    (upsert_company_excel c1Drive c1New "acme" "folder1").1.rows.take 10
      = c1Existing.rows := by
  have h := (C1_upsert_pure_append c1Drive c1New "acme" "folder1").2.1 c1Existing (by rfl)
  exact ⟨h.1, by rw [h.2.1]; rfl, by have := h.2.2.1; rwa [show c1Existing.rows.length = 10 from rfl] at this⟩

/-! ### C9: duplicate digest fields — the last child wins -/

theorem lookup_dictInsert (r : PRow) (a k : String) (v : Option String) :
    List.lookup k (dictInsert r a v) = if k = a then some v else List.lookup k r := by
  induction r with
  | nil =>
      by_cases h : k = a
      · simp [dictInsert, List.lookup, beq_iff_eq.mpr h, h]
      · simp [dictInsert, List.lookup, beq_eq_false_iff_ne.mpr h, h]
  | cons hd tl ih =>
      obtain ⟨k0, v0⟩ := hd
      simp only [dictInsert]
      by_cases h1 : k0 = a
      · subst h1
        rw [if_pos (beq_self_eq_true k0)]
        by_cases h2 : k = k0
        · simp [List.lookup, beq_iff_eq.mpr h2, h2]
        · simp [List.lookup, beq_eq_false_iff_ne.mpr h2, h2]
      · rw [if_neg (by simp [h1])]
        by_cases h2 : k = k0
        · subst h2
          have hka : ¬ k = a := h1
          simp [List.lookup, beq_self_eq_true k, hka]
        · simp only [List.lookup, beq_eq_false_iff_ne.mpr h2, ih]

theorem getLast?_cons_or (a : α) (l : List α) :
    (a :: l).getLast? = match l.getLast? with
      | some x => some x
      | none => some a := by
  induction l generalizing a with
  | nil => rfl
  | cons b t ih =>
      rw [List.getLast?_cons_cons, ih b]
      cases h : t.getLast? with
      | some x => rfl
      | none => rfl

theorem lookup_foldl_dictInsert (l : List XElem) (r : PRow) (k : String) :
    List.lookup k (l.foldl (fun r c => dictInsert r (stripNs c.tag) c.text) r) =
      match (l.filter (fun c => stripNs c.tag == k)).getLast? with
      | some c => some c.text
      | none => List.lookup k r := by
  induction l generalizing r with
  | nil => simp
  | cons c t ih =>
      rw [List.foldl_cons, ih]
      by_cases h : stripNs c.tag = k
      · rw [List.filter_cons_of_pos (by simp [h]), getLast?_cons_or]
        cases hl : (t.filter (fun c => stripNs c.tag == k)).getLast? with
        | some x => rfl
        | none => simp [lookup_dictInsert, h]
      · rw [List.filter_cons_of_neg (by simp [h])]
        cases hl : (t.filter (fun c => stripNs c.tag == k)).getLast? with
        | some x => rfl
        | none => simp [lookup_dictInsert, Ne.symm h]

/-- C9: in the record built for a digest element, a key maps to the text of
the **last** child (in document order) whose namespace-stripped tag equals
that key; earlier duplicates are overwritten.  (In particular the key is
present exactly when some child carries it.) -/
theorem C9_duplicate_child_last_wins (inv : XElem) (key : String) :
    List.lookup key (rowOfDigest inv) =
      ((inv.children.childList.filter (fun c => stripNs c.tag == key)).getLast?).map
        XElem.text := by
  rw [rowOfDigest, lookup_foldl_dictInsert]
  cases hl : (inv.children.childList.filter (fun c => stripNs c.tag == key)).getLast? with
  | some x => rfl
  | none => rfl

/-! ### C6: absent page counters default to 1 and stop the loop -/

/-- C6 (amended): when the `availablePage` element is absent the parser
yields `available_page = 1`, and when the `currentPage` element is absent it
yields `current_page = 1`; when `availablePage` is absent and the parsed
`current_page` is at least 1 — in particular whenever both counters are
absent — the paging loop stops after exactly one request.  The claim's
stronger consequence — one request for *every* document with a missing
counter — is refuted by `C6_missing_counter_counterexample`: with only
`currentPage` absent and `availablePage = "2"`, the defaulted
`current_page = 1` is below `available_page` and a second request is
issued. -/
theorem C6_missing_counters_default_one
    (fromstring : String → Except PyError XElem) (ser : ReqDoc → String)
    (ids times : Nat → String) (env : Nat → HttpResp) (company : Company)
    (date_from date_to text : String) (root : XElem) (cp : Int) (fuel : Nat)
    (hfs : fromstring text = .ok root)
    (ha : XForest.findAll (navTag "availablePage") root.children = [])
    (hcp : pyInt (findtextD root (navTag "currentPage") "1") = .ok cp)
    (hcp1 : 1 ≤ cp)
    (henv : env 0 = ⟨200, text⟩)
    (hfuel : 1 ≤ fuel) :
    parse_response fromstring text = .ok (digestRows root, cp, 1) ∧
    (XForest.findAll (navTag "currentPage") root.children = [] → cp = 1) ∧
    fetch_all_invoices fromstring ser ids times env company date_from date_to fuel =
      some (.ok ⟨DataFrame.fromRecords (digestRows root),
        ser ⟨ids 0, times 0, company, 1, date_from, date_to⟩, text,
        [⟨ids 0, times 0, company, 1, date_from, date_to⟩]⟩) := by
  have hav : findtextD root (navTag "availablePage") "1" = "1" := by
    rw [findtextD, ha]
  have hparse : parse_response fromstring text = .ok (digestRows root, cp, 1) := by
    simp only [parse_response, hfs, hcp, hav]
    rfl
  refine ⟨hparse, ?_, ?_⟩
  · intro hc
    rw [findtextD, hc] at hcp
    have : pyInt "1" = .ok 1 := rfl
    rw [this] at hcp
    exact (Except.ok.injEq .. ▸ hcp).symm
  · obtain ⟨f, rfl⟩ : ∃ f, fuel = f + 1 := ⟨fuel - 1, by omega⟩
    rw [fetch_all_invoices, fetchLoop, henv]
    simp only [hparse]
    rw [if_neg (by simp), if_pos hcp1]
    rfl

/-- A concrete response document with one digest and no page counters. -/
def c6Root : XElem :=
  ⟨navTag "QueryInvoiceDigestResponse", none,
   .node (navTag "invoiceDigest") none
     (.node (navTag "invoiceNumber") (some "INV-1") .nil .nil) .nil⟩

def c6FromString : String → Except PyError XElem := fun _ => .ok c6Root

def c6Env : Nat → HttpResp := fun _ => ⟨200, "resp-body"⟩

def c6Ids : Nat → String := fun k => "id" ++ toString k

def c6Times : Nat → String := fun k => "t" ++ toString k

def c6Company : Company :=
  ⟨"acme", "login", "pw", "12345678-2-42", "sigkey", "https://api.example", "folder1", true⟩

def c6Ser : ReqDoc → String := fun d => d.request_id ++ "@" ++ toString d.page

/-- C6 witness: a concrete counterless response parses to `(rows, 1, 1)` and
the loop issues exactly one request. -/
theorem C6_missing_counters_witness :
    parse_response c6FromString "resp-body" = .ok (digestRows c6Root, 1, 1) ∧
    (XForest.findAll (navTag "currentPage") c6Root.children = [] → (1 : Int) = 1) ∧
    fetch_all_invoices c6FromString c6Ser c6Ids c6Times c6Env c6Company
        "2024-01-01" "2024-01-07" 1 =
      some (.ok ⟨DataFrame.fromRecords (digestRows c6Root),
        c6Ser ⟨c6Ids 0, c6Times 0, c6Company, 1, "2024-01-01", "2024-01-07"⟩, "resp-body",
        [⟨c6Ids 0, c6Times 0, c6Company, 1, "2024-01-01", "2024-01-07"⟩]⟩) :=
  C6_missing_counters_default_one c6FromString c6Ser c6Ids c6Times c6Env c6Company
    "2024-01-01" "2024-01-07" "resp-body" c6Root 1 1 rfl rfl rfl (by decide) rfl
    (by decide)

/-! ### C10: unparseable page counters raise, caught per company -/

/-- `int()` failures carry exactly one argument (the message). -/
theorem pyInt_error_args {s : String} {err : PyError} (h : pyInt s = .error err) :
    err.args.length = 1 := by
  rw [pyInt] at h
  cases hc : pyIntCore ((s.data.dropWhile isPyWS).reverse.dropWhile isPyWS).reverse with
  | some n => rw [hc] at h; cases h
  | none =>
      rw [hc] at h
      cases h
      rfl

/-- A FAILED `RunLogEntry`. -/
def failedLogRow (code pf pt error reqx respx now : String) : LogRow :=
  ⟨code, pf, pt, "FAILED", 0, error, reqx, respx, now⟩

/-- C10: when a page-counter element — `currentPage`, or `availablePage`
with `currentPage` parsing fine — is present but its text does not parse as
an integer, `parse_response` raises (no default to 1); the exception is
caught at the per-company level, becomes a FAILED log entry for that company
(no snapshots: the `ValueError` has a single argument), no dataset is
written, and the run continues with the remaining companies and still
returns the success-shaped result. -/
theorem C10_unparseable_counter_raises
    (fromstring : String → Except PyError XElem) (ser : ReqDoc → String)
    (fuel : Nat) (pf pt text : String) (root : XElem)
    (err : PyError) (ce : CompanyEnv)
    (hfs : fromstring text = .ok root)
    (herr :
      (∃ e es, XForest.findAll (navTag "currentPage") root.children = e :: es ∧
        pyInt (e.text.getD "") = .error err) ∨
      (∃ cp e es, pyInt (findtextD root (navTag "currentPage") "1") = .ok cp ∧
        XForest.findAll (navTag "availablePage") root.children = e :: es ∧
        pyInt (e.text.getD "") = .error err))
    (henv : ce.env 0 = ⟨200, text⟩)
    (hfuel : 1 ≤ fuel) :
    parse_response fromstring text = .error err ∧
    fetch_all_invoices fromstring ser ce.ids ce.times ce.env ce.company pf pt fuel =
      some (.error (.py err)) ∧
    runCompany fromstring ser fuel pf pt ce =
      some (failedLogRow ce.company.company_code pf pt (err.args.getD 0 "") "" "" ce.now,
        none) ∧
    (∀ rest log ups, processCompanies fromstring ser fuel pf pt rest = some (log, ups) →
      weekly_invoice_export fromstring ser fuel pf pt (ce :: rest) =
        some ((failedLogRow ce.company.company_code pf pt (err.args.getD 0 "") "" ""
            ce.now) :: log, ups, ("ok", log.length + 1), 200)) := by
  obtain ⟨hparse, hargs⟩ :
      parse_response fromstring text = .error err ∧ err.args.length = 1 := by
    rcases herr with ⟨e, es, hcur, he⟩ | ⟨cp, e, es, hcp, hav, he⟩
    · have hft : findtextD root (navTag "currentPage") "1" = e.text.getD "" := by
        rw [findtextD, hcur]
      exact ⟨by simp only [parse_response, hfs, hft, he], pyInt_error_args he⟩
    · have hft : findtextD root (navTag "availablePage") "1" = e.text.getD "" := by
        rw [findtextD, hav]
      exact ⟨by simp only [parse_response, hfs, hcp, hft, he], pyInt_error_args he⟩
  obtain ⟨f, rfl⟩ : ∃ f, fuel = f + 1 := ⟨fuel - 1, by omega⟩
  have hfetch : fetch_all_invoices fromstring ser ce.ids ce.times ce.env ce.company
      pf pt (f + 1) = some (.error (.py err)) := by
    rw [fetch_all_invoices, fetchLoop, henv]
    simp only [hparse]
    rw [if_neg (by simp)]
  have hrun : runCompany fromstring ser (f + 1) pf pt ce =
      some (failedLogRow ce.company.company_code pf pt (err.args.getD 0 "") "" "" ce.now,
        none) := by
    rw [runCompany, hfetch]
    simp only [FetchErr.toArgs]
    rw [if_neg (by omega), if_neg (by omega)]
    rfl
  refine ⟨hparse, hfetch, hrun, ?_⟩
  intro rest log ups hrest
  rw [weekly_invoice_export, processCompanies, hrun]
  simp only [Option.bind, hrest]
  rfl

/-- A concrete response whose `currentPage` text is not a number. -/
def c10Root : XElem :=
  ⟨navTag "QueryInvoiceDigestResponse", none,
   .node (navTag "currentPage") (some "abc") .nil .nil⟩

def c10FromString : String → Except PyError XElem := fun _ => .ok c10Root

def c10Ce : CompanyEnv :=
  ⟨c6Company, fun _ => ⟨200, "bad-body"⟩, c6Ids, c6Times, "now0", fun _ _ => none⟩

/-- A response whose `currentPage` parses but whose `availablePage` text is
not a number. -/
def c10bRoot : XElem :=
  ⟨navTag "QueryInvoiceDigestResponse", none,
   .node (navTag "currentPage") (some "1") .nil
     (.node (navTag "availablePage") (some "xyz") .nil .nil)⟩

def c10bFromString : String → Except PyError XElem := fun _ => .ok c10bRoot

def c10bCe : CompanyEnv :=
  ⟨c6Company, fun _ => ⟨200, "bad-body-b"⟩, c6Ids, c6Times, "now0b", fun _ _ => none⟩

/-- C10 witness: `currentPage = "abc"` raises and, symmetrically,
`availablePage = "xyz"` raises; in both runs the company logs FAILED and the
run result is still success-shaped. -/
theorem C10_unparseable_counter_witness :
    (parse_response c10FromString "bad-body" =
        .error ⟨["invalid literal for int() with base 10: abc"]⟩ ∧
      runCompany c10FromString c6Ser 1 "2024-01-01" "2024-01-07" c10Ce =
        some (failedLogRow "acme" "2024-01-01" "2024-01-07"
          "invalid literal for int() with base 10: abc" "" "" "now0", none) ∧
      weekly_invoice_export c10FromString c6Ser 1 "2024-01-01" "2024-01-07" [c10Ce] =
        some ([failedLogRow "acme" "2024-01-01" "2024-01-07"
          "invalid literal for int() with base 10: abc" "" "" "now0"], [],
          ("ok", 1), 200)) ∧
    (parse_response c10bFromString "bad-body-b" =
        .error ⟨["invalid literal for int() with base 10: xyz"]⟩ ∧
      runCompany c10bFromString c6Ser 1 "2024-01-01" "2024-01-07" c10bCe =
        some (failedLogRow "acme" "2024-01-01" "2024-01-07"
          "invalid literal for int() with base 10: xyz" "" "" "now0b", none) ∧
      weekly_invoice_export c10bFromString c6Ser 1 "2024-01-01" "2024-01-07" [c10bCe] =
        some ([failedLogRow "acme" "2024-01-01" "2024-01-07"
          "invalid literal for int() with base 10: xyz" "" "" "now0b"], [],
          ("ok", 1), 200)) :=
  have ha := C10_unparseable_counter_raises c10FromString c6Ser 1 "2024-01-01"
    "2024-01-07" "bad-body" c10Root
    ⟨["invalid literal for int() with base 10: abc"]⟩ c10Ce rfl
    (Or.inl ⟨⟨navTag "currentPage", some "abc", .nil⟩, [], rfl, rfl⟩) rfl (by decide)
  have hb := C10_unparseable_counter_raises c10bFromString c6Ser 1 "2024-01-01"
    "2024-01-07" "bad-body-b" c10bRoot
    ⟨["invalid literal for int() with base 10: xyz"]⟩ c10bCe rfl
    (Or.inr ⟨1, ⟨navTag "availablePage", some "xyz", .nil⟩, [], rfl, rfl, rfl⟩) rfl
    (by decide)
  ⟨⟨ha.1, ha.2.2.1, ha.2.2.2 [] [] [] rfl⟩, ⟨hb.1, hb.2.2.1, hb.2.2.2 [] [] [] rfl⟩⟩

/-! ### C5: per-company failure handling (message NOT truncated to 500) -/

theorem pySlice_length_le (s : String) (n : Nat) : (pySlice s n).length ≤ n := by
  simp only [pySlice, String.length]
  exact List.length_take_le n s.data

/-- C5 (amended): every per-company failure is caught and becomes a FAILED
`RunLogEntry` whose request/response diagnostic snapshots, when available
(an exception carrying at least three arguments), are truncated to at most
30000 characters, and processing continues with the next company; but the
error message itself is stored as `str(e.args[0])` in full, **without** the
≤ 500-character truncation the spec describes
(`C5_error_truncation_counterexample` exhibits a 540-character message). -/
theorem C5_failure_handling_amended
    (fromstring : String → Except PyError XElem) (ser : ReqDoc → String)
    (fuel : Nat) (pf pt : String) (ce : CompanyEnv) (e : FetchErr)
    (hfetch : fetch_all_invoices fromstring ser ce.ids ce.times ce.env ce.company
      pf pt fuel = some (.error e)) :
    runCompany fromstring ser fuel pf pt ce =
      some (failedLogRow ce.company.company_code pf pt (e.toArgs.getD 0 "")
        (if 3 ≤ e.toArgs.length then pySlice (e.toArgs.getD 1 "") 30000 else "")
        (if 3 ≤ e.toArgs.length then pySlice (e.toArgs.getD 2 "") 30000 else "")
        ce.now, none) ∧
    (if 3 ≤ e.toArgs.length then pySlice (e.toArgs.getD 1 "") 30000 else "").length
      ≤ 30000 ∧
    (if 3 ≤ e.toArgs.length then pySlice (e.toArgs.getD 2 "") 30000 else "").length
      ≤ 30000 ∧
    (∀ rest log ups, processCompanies fromstring ser fuel pf pt rest = some (log, ups) →
      weekly_invoice_export fromstring ser fuel pf pt (ce :: rest) =
        some ((failedLogRow ce.company.company_code pf pt (e.toArgs.getD 0 "")
            (if 3 ≤ e.toArgs.length then pySlice (e.toArgs.getD 1 "") 30000 else "")
            (if 3 ≤ e.toArgs.length then pySlice (e.toArgs.getD 2 "") 30000 else "")
            ce.now) :: log, ups, ("ok", log.length + 1), 200)) := by
  have hrun : runCompany fromstring ser fuel pf pt ce =
      some (failedLogRow ce.company.company_code pf pt (e.toArgs.getD 0 "")
        (if 3 ≤ e.toArgs.length then pySlice (e.toArgs.getD 1 "") 30000 else "")
        (if 3 ≤ e.toArgs.length then pySlice (e.toArgs.getD 2 "") 30000 else "")
        ce.now, none) := by
    rw [runCompany, hfetch]
    rfl
  refine ⟨hrun, ?_, ?_, ?_⟩
  · split
    · exact pySlice_length_le ..
    · simp [String.length]
  · split
    · exact pySlice_length_le ..
    · simp [String.length]
  · intro rest log ups hrest
    rw [weekly_invoice_export, processCompanies, hrun]
    simp only [Option.bind, hrest]
    rfl

/-- A transport environment that answers every request with HTTP 500. -/
def c5WitCe : CompanyEnv :=
  ⟨c6Company, fun _ => ⟨500, "server-error"⟩, c6Ids, c6Times, "now5", fun _ _ => none⟩

/-- C5 witness: an HTTP 500 failure is logged FAILED with its three-argument
diagnostics truncated (here already short), and a singleton run still
returns the success-shaped result. -/
theorem C5_failure_handling_witness :
    runCompany c10FromString c6Ser 1 "2024-01-01" "2024-01-07" c5WitCe =
      some (failedLogRow "acme" "2024-01-01" "2024-01-07" "NAV HTTP 500" "id0@1"
        "server-error" "now5", none) ∧
    ("id0@1" : String).length ≤ 30000 ∧
    ("server-error" : String).length ≤ 30000 ∧
    weekly_invoice_export c10FromString c6Ser 1 "2024-01-01" "2024-01-07" [c5WitCe] =
      some ([failedLogRow "acme" "2024-01-01" "2024-01-07" "NAV HTTP 500" "id0@1"
        "server-error" "now5"], [], ("ok", 1), 200) :=
  have h := C5_failure_handling_amended c10FromString c6Ser 1 "2024-01-01" "2024-01-07"
    c5WitCe (.http "NAV HTTP 500" "id0@1" "server-error") rfl
  ⟨h.1, h.2.1, h.2.2.1, h.2.2.2 [] [] [] rfl⟩

/-- A response whose `currentPage` text is 500 unparseable characters. -/
def c5LongText : String := String.mk (List.replicate 500 'x')

def c5Root : XElem :=
  ⟨navTag "QueryInvoiceDigestResponse", none,
   .node (navTag "currentPage") (some c5LongText) .nil .nil⟩

def c5FromString : String → Except PyError XElem := fun _ => .ok c5Root

def c5Ce : CompanyEnv :=
  ⟨c6Company, fun _ => ⟨200, "body5"⟩, c6Ids, c6Times, "now5", fun _ _ => none⟩

set_option maxRecDepth 10000 in
/-- C5 counterexample: the FAILED entry's error message is **not** truncated
to 500 characters — this run stores a 540-character message. -/
theorem C5_error_truncation_counterexample :
    (runCompany c5FromString c6Ser 1 "2024-01-01" "2024-01-07" c5Ce).map
      (fun p => (p.1.status, p.1.error.length)) = some ("FAILED", 540) ∧
    ¬ (540 : Nat) ≤ 500 :=
  ⟨by rfl, by decide⟩


/-! ### C2: the paging loop visits pages 1..N in order -/

/-- Invariant of the paging loop on an all-success environment: starting at
draw `k` (page `k + 1`) with `m` pages left (`k + m = N`), the loop fetches
exactly pages `k+1 … N` and appends their rows, in order. -/
theorem fetchLoop_success (fromstring : String → Except PyError XElem)
    (ser : ReqDoc → String) (ids times : Nat → String) (env : Nat → HttpResp)
    (company : Company) (date_from date_to : String) (N : Nat) (rows : Nat → List PRow)
    (henv : ∀ k, k < N → (env k).status_code = 200 ∧
      parse_response fromstring (env k).text = .ok (rows k, ((k : Int) + 1), (N : Int))) :
    ∀ (m k : Nat), 0 < m → k + m = N → ∀ (fuel : Nat), m ≤ fuel →
      ∀ (acc : List PRow) (log : List ReqDoc),
      fetchLoop fromstring ser ids times env company date_from date_to fuel (k + 1) k
          acc log =
        some (.ok ⟨DataFrame.fromRecords (acc ++ ((List.range' k m).map rows).flatten),
          ser (mkReqDoc ids times company date_from date_to (N - 1)),
          (env (N - 1)).text,
          log ++ (List.range' k m).map (mkReqDoc ids times company date_from date_to)⟩) := by
  intro m
  induction m with
  | zero => omega
  | succ m ih =>
      intro k _ hkm fuel hfuel acc log
      obtain ⟨f, rfl⟩ : ∃ f, fuel = f + 1 := ⟨fuel - 1, by omega⟩
      obtain ⟨h200, hparse⟩ := henv k (by omega)
      rw [fetchLoop]
      rw [if_neg (by omega)]
      simp only [hparse]
      by_cases hlast : m = 0
      · subst hlast
        have hkN : k + 1 = N := by omega
        rw [if_pos (by omega)]
        have h1 : N - 1 = k := by omega
        simp [List.range'_one, h1, mkReqDoc]
      · rw [if_neg (by omega)]
        have := ih (k + 1) (by omega) (by omega) f (by omega) (acc ++ rows k)
          (log ++ [⟨ids k, times k, company, k + 1, date_from, date_to⟩])
        rw [this]
        rw [List.range'_succ]
        simp [mkReqDoc, List.append_assoc]

/-- C2: when every page `k+1` answers 200, echoes `current_page = k+1` and
reports `available_page = N`, the Fetcher issues exactly `N` requests with
pages `1, 2, …, N` in order, each carrying the next freshly drawn request id
(so the ids are pairwise distinct whenever the draws are); the final
dataframe is the concatenation of all pages' rows in page order and response
order, with no reordering or deduplication, and its row count is the sum of
the per-page counts. -/
theorem C2_paging_fetch_order (fromstring : String → Except PyError XElem)
    (ser : ReqDoc → String) (ids times : Nat → String) (env : Nat → HttpResp)
    (company : Company) (date_from date_to : String)
    (N : Nat) (hN : 1 ≤ N) (rows : Nat → List PRow)
    (henv : ∀ k, k < N → (env k).status_code = 200 ∧
      parse_response fromstring (env k).text = .ok (rows k, ((k : Int) + 1), (N : Int)))
    (fuel : Nat) (hfuel : N ≤ fuel) :
    fetch_all_invoices fromstring ser ids times env company date_from date_to fuel =
      some (.ok ⟨DataFrame.fromRecords (((List.range N).map rows).flatten),
        ser (mkReqDoc ids times company date_from date_to (N - 1)),
        (env (N - 1)).text,
        (List.range N).map (mkReqDoc ids times company date_from date_to)⟩) ∧
    ((List.range N).map (mkReqDoc ids times company date_from date_to)).length = N ∧
    ((List.range N).map (mkReqDoc ids times company date_from date_to)).map ReqDoc.page
      = (List.range N).map (fun k => k + 1) ∧
    ((List.range N).map (mkReqDoc ids times company date_from date_to)).map
        ReqDoc.request_id = (List.range N).map ids ∧
    (((List.range N).map ids).Nodup →
      (((List.range N).map (mkReqDoc ids times company date_from date_to)).map
        ReqDoc.request_id).Nodup) ∧
    (DataFrame.fromRecords (((List.range N).map rows).flatten)).rows.length
      = ((List.range N).map (fun k => (rows k).length)).sum := by
  have hid : ((List.range N).map (mkReqDoc ids times company date_from date_to)).map
      ReqDoc.request_id = (List.range N).map ids := by
    simp [List.map_map, mkReqDoc, Function.comp]
  refine ⟨?_, by simp, ?_, hid, ?_, ?_⟩
  · have h := fetchLoop_success fromstring ser ids times env company date_from date_to
      N rows henv N 0 (by omega) (by omega) fuel hfuel [] []
    rw [fetch_all_invoices, show (1 : Nat) = 0 + 1 from rfl, h]
    simp [List.range_eq_range']
  · simp [List.map_map, mkReqDoc, Function.comp]
  · intro h
    rwa [hid]
  · simp only [DataFrame.fromRecords, List.length_map, List.length_flatten, List.map_map]
    rfl

def c2Root (k : Nat) : XElem :=
  ⟨navTag "QueryInvoiceDigestResponse", none,
   .node (navTag "currentPage") (some (toString (k + 1))) .nil
     (.node (navTag "availablePage") (some "3") .nil
       (.node (navTag "invoiceDigest") none
         (.node (navTag "invoiceNumber") (some ("INV" ++ toString k)) .nil .nil) .nil))⟩

def c2FromString : String → Except PyError XElem := fun t =>
  if t == "page1" then .ok (c2Root 0)
  else if t == "page2" then .ok (c2Root 1)
  else .ok (c2Root 2)

def c2Env : Nat → HttpResp := fun k => ⟨200, "page" ++ toString (k + 1)⟩

def c2Rows (k : Nat) : List PRow := digestRows (c2Root k)

/-- C2 witness: a concrete three-page response sequence. -/
theorem C2_paging_witness :
    fetch_all_invoices c2FromString c6Ser c6Ids c6Times c2Env c6Company
        "2024-01-01" "2024-01-07" 3 =
      some (.ok ⟨DataFrame.fromRecords (((List.range 3).map c2Rows).flatten),
        c6Ser (mkReqDoc c6Ids c6Times c6Company "2024-01-01" "2024-01-07" 2),
        (c2Env 2).text,
        (List.range 3).map (mkReqDoc c6Ids c6Times c6Company "2024-01-01" "2024-01-07")⟩) ∧
    ((List.range 3).map (mkReqDoc c6Ids c6Times c6Company "2024-01-01" "2024-01-07")).map
        ReqDoc.page = (List.range 3).map (fun k => k + 1) ∧
    (((List.range 3).map (mkReqDoc c6Ids c6Times c6Company "2024-01-01" "2024-01-07")).map
        ReqDoc.request_id).Nodup ∧
    (DataFrame.fromRecords (((List.range 3).map c2Rows).flatten)).rows.length
      = ((List.range 3).map (fun k => (c2Rows k).length)).sum :=
  have h := C2_paging_fetch_order c2FromString c6Ser c6Ids c6Times c2Env c6Company
    "2024-01-01" "2024-01-07" 3 (by decide) c2Rows
    (by intro k hk
        interval_cases k <;> exact ⟨rfl, rfl⟩) 3 (by decide)
  ⟨h.1, h.2.2.1, h.2.2.2.2.1 (by decide), h.2.2.2.2.2⟩

/-! ### C4: a non-200 response fails the whole company -/

/-- If every response before draw `j` succeeds and still has pages ahead, and
response `j` has a non-200 status, the loop raises the structured
`RuntimeError` carrying the message, the serialized request document of the
failing page, and the raw response body — all accumulated rows discarded. -/
theorem fetchLoop_failure (fromstring : String → Except PyError XElem)
    (ser : ReqDoc → String) (ids times : Nat → String) (env : Nat → HttpResp)
    (company : Company) (date_from date_to : String)
    (j : Nat) (rows : Nat → List PRow) (avail : Nat → Int)
    (henv : ∀ k, k < j → (env k).status_code = 200 ∧
      parse_response fromstring (env k).text = .ok (rows k, ((k : Int) + 1), avail k) ∧
      ((k : Int) + 1) < avail k)
    (hfail : (env j).status_code ≠ 200) :
    ∀ (m k : Nat), k + m = j → ∀ (fuel : Nat), m + 1 ≤ fuel →
      ∀ (acc : List PRow) (log : List ReqDoc),
      fetchLoop fromstring ser ids times env company date_from date_to fuel (k + 1) k
          acc log =
        some (.error (.http ("NAV HTTP " ++ toString (env j).status_code)
          (ser (mkReqDoc ids times company date_from date_to j)) (env j).text)) := by
  intro m
  induction m with
  | zero =>
      intro k hk fuel hfuel acc log
      obtain rfl : k = j := by omega
      obtain ⟨f, rfl⟩ : ∃ f, fuel = f + 1 := ⟨fuel - 1, by omega⟩
      rw [fetchLoop, if_pos hfail]
      rfl
  | succ m ih =>
      intro k hk fuel hfuel acc log
      obtain ⟨f, rfl⟩ : ∃ f, fuel = f + 1 := ⟨fuel - 1, by omega⟩
      obtain ⟨h200, hparse, hcont⟩ := henv k (by omega)
      rw [fetchLoop, if_neg (by omega)]
      simp only [hparse]
      rw [if_neg (by omega)]
      exact ih (k + 1) (by omega) f (by omega) _ _

/-- C4: a non-200 status on any page raises a structured error carrying a
human-readable message, the exact request document of the failing page and
the raw response body; the company's accumulated rows are discarded (no
dataset is written, the FAILED entry counts 0 invoices), a FAILED log entry
is produced, processing continues with the remaining companies, and the run
still returns the success-shaped result. -/
theorem C4_non200_fails_company (fromstring : String → Except PyError XElem)
    (ser : ReqDoc → String) (fuel : Nat) (pf pt : String) (ce : CompanyEnv)
    (j : Nat) (rows : Nat → List PRow) (avail : Nat → Int)
    (henv : ∀ k, k < j → (ce.env k).status_code = 200 ∧
      parse_response fromstring (ce.env k).text = .ok (rows k, ((k : Int) + 1), avail k) ∧
      ((k : Int) + 1) < avail k)
    (hfail : (ce.env j).status_code ≠ 200)
    (hfuel : j + 1 ≤ fuel) :
    fetch_all_invoices fromstring ser ce.ids ce.times ce.env ce.company pf pt fuel =
      some (.error (.http ("NAV HTTP " ++ toString ((ce.env j).status_code))
        (ser (mkReqDoc ce.ids ce.times ce.company pf pt j)) ((ce.env j).text))) ∧
    runCompany fromstring ser fuel pf pt ce =
      some (failedLogRow ce.company.company_code pf pt
        ("NAV HTTP " ++ toString ((ce.env j).status_code))
        (pySlice (ser (mkReqDoc ce.ids ce.times ce.company pf pt j)) 30000)
        (pySlice ((ce.env j).text) 30000) ce.now, none) ∧
    (∀ rest log ups, processCompanies fromstring ser fuel pf pt rest = some (log, ups) →
      weekly_invoice_export fromstring ser fuel pf pt (ce :: rest) =
        some ((failedLogRow ce.company.company_code pf pt
            ("NAV HTTP " ++ toString ((ce.env j).status_code))
            (pySlice (ser (mkReqDoc ce.ids ce.times ce.company pf pt j)) 30000)
            (pySlice ((ce.env j).text) 30000) ce.now) :: log, ups,
          ("ok", log.length + 1), 200)) := by
  have hfetch : fetch_all_invoices fromstring ser ce.ids ce.times ce.env ce.company
      pf pt fuel =
      some (.error (.http ("NAV HTTP " ++ toString ((ce.env j).status_code))
        (ser (mkReqDoc ce.ids ce.times ce.company pf pt j)) ((ce.env j).text))) := by
    have h := fetchLoop_failure fromstring ser ce.ids ce.times ce.env ce.company pf pt
      j rows avail henv hfail j 0 (by omega) fuel (by omega) [] []
    rw [fetch_all_invoices, show (1 : Nat) = 0 + 1 from rfl, h]
  have hrun : runCompany fromstring ser fuel pf pt ce =
      some (failedLogRow ce.company.company_code pf pt
        ("NAV HTTP " ++ toString ((ce.env j).status_code))
        (pySlice (ser (mkReqDoc ce.ids ce.times ce.company pf pt j)) 30000)
        (pySlice ((ce.env j).text) 30000) ce.now, none) := by
    rw [runCompany, hfetch]
    rfl
  refine ⟨hfetch, hrun, ?_⟩
  intro rest log ups hrest
  rw [weekly_invoice_export, processCompanies, hrun]
  simp only [Option.bind, hrest]
  rfl

def c4Env : Nat → HttpResp := fun k => if k == 0 then ⟨200, "page1"⟩ else ⟨503, "Server Error"⟩

def c4Ce : CompanyEnv := ⟨c6Company, c4Env, c6Ids, c6Times, "now4", fun _ _ => none⟩

def c4GoodCompany : Company :=
  ⟨"beta", "login2", "pw2", "87654321-2-42", "sigkey2", "https://api2.example", "folder2", true⟩

def c4GoodCe : CompanyEnv :=
  ⟨c4GoodCompany, fun _ => ⟨200, "page3"⟩, c6Ids, c6Times, "now4b", fun _ _ => none⟩

def c4SuccessRow : LogRow :=
  ⟨"beta", "2024-01-01", "2024-01-07", "SUCCESS", 1, "", "", "", "now4b"⟩

def c4GoodUpsert : UpsertRec :=
  ⟨"beta_invoices.xlsx", "folder2",
   transform_weekly (DataFrame.fromRecords (c2Rows 2)) "2024-01-01" "2024-01-07"⟩

/-- C4 witness: page 1 succeeds (3 pages available), page 2 answers 503; the
company fails with full diagnostics while the next company still succeeds. -/
theorem C4_non200_witness :
    fetch_all_invoices c2FromString c6Ser c4Ce.ids c4Ce.times c4Ce.env c4Ce.company
        "2024-01-01" "2024-01-07" 2 =
      some (.error (.http ("NAV HTTP " ++ toString ((c4Ce.env 1).status_code))
        (c6Ser (mkReqDoc c4Ce.ids c4Ce.times c4Ce.company "2024-01-01" "2024-01-07" 1))
        ((c4Ce.env 1).text))) ∧
    runCompany c2FromString c6Ser 2 "2024-01-01" "2024-01-07" c4Ce =
      some (failedLogRow "acme" "2024-01-01" "2024-01-07"
        ("NAV HTTP " ++ toString ((c4Ce.env 1).status_code))
        (pySlice (c6Ser (mkReqDoc c4Ce.ids c4Ce.times c4Ce.company
          "2024-01-01" "2024-01-07" 1)) 30000)
        (pySlice ((c4Ce.env 1).text) 30000) "now4", none) ∧
    weekly_invoice_export c2FromString c6Ser 2 "2024-01-01" "2024-01-07"
        [c4Ce, c4GoodCe] =
      some ([failedLogRow "acme" "2024-01-01" "2024-01-07"
          ("NAV HTTP " ++ toString ((c4Ce.env 1).status_code))
          (pySlice (c6Ser (mkReqDoc c4Ce.ids c4Ce.times c4Ce.company
            "2024-01-01" "2024-01-07" 1)) 30000)
          (pySlice ((c4Ce.env 1).text) 30000) "now4",
        c4SuccessRow], [c4GoodUpsert], ("ok", 2), 200) :=
  have h := C4_non200_fails_company c2FromString c6Ser 2 "2024-01-01" "2024-01-07" c4Ce
    1 c2Rows (fun _ => 3)
    (by intro k hk
        interval_cases k
        exact ⟨rfl, rfl, by decide⟩)
    (by decide) (by decide)
  ⟨h.1, h.2.1, h.2.2 [c4GoodCe] [c4SuccessRow] [c4GoodUpsert] (by rfl)⟩

/-! ### C3: projection and coercions apply to the new rows only -/

theorem lookup_assocSet (r : Row) (a k : String) (v : Cell) :
    List.lookup k (assocSet r a v) = if k = a then some v else List.lookup k r := by
  induction r with
  | nil =>
      by_cases h : k = a
      · simp [assocSet, List.lookup, beq_iff_eq.mpr h, h]
      · simp [assocSet, List.lookup, beq_eq_false_iff_ne.mpr h, h]
  | cons hd tl ih =>
      obtain ⟨k0, v0⟩ := hd
      simp only [assocSet]
      by_cases h1 : k0 = a
      · subst h1
        rw [if_pos (beq_self_eq_true k0)]
        by_cases h2 : k = k0
        · simp [List.lookup, beq_iff_eq.mpr h2, h2]
        · simp [List.lookup, beq_eq_false_iff_ne.mpr h2, h2]
      · rw [if_neg (by simp [h1])]
        by_cases h2 : k = k0
        · subst h2
          have hka : ¬ k = a := h1
          simp [List.lookup, beq_self_eq_true k, hka]
        · simp only [List.lookup, beq_eq_false_iff_ne.mpr h2, ih]

theorem lookupCell_assocSet (r : Row) (a c : String) (v : Cell) :
    lookupCell (assocSet r a v) c = if c = a then v else lookupCell r c := by
  rw [lookupCell, lookup_assocSet]
  by_cases h : c = a <;> simp [h, lookupCell]

/-- The cell a digest record yields for a column: the recorded text as a
string cell, null when the key is absent or its text was `None`. -/
def origCell (r : PRow) (c : String) : Cell :=
  match List.lookup c r with
  | some v => cellOfPy v
  | none => .na

theorem lookupCell_mapped (r : PRow) (c : String) :
    lookupCell (r.map (fun kv => (kv.1, cellOfPy kv.2))) c = origCell r c := by
  rw [lookupCell, origCell]
  induction r with
  | nil => rfl
  | cons hd tl ih =>
      obtain ⟨k0, v0⟩ := hd
      by_cases h : c = k0
      · simp [List.lookup, beq_iff_eq.mpr h]
      · simp only [List.map_cons, List.lookup, beq_eq_false_iff_ne.mpr h]
        exact ih

/-- The per-column coercion of the weekly transform: date columns through
`to_datetime`, then numeric columns through `to_numeric`. -/
def coerceCol (c : String) (v : Cell) : Cell :=
  let v1 := if DATE_COLUMNS.contains c then toDatetimeCell v else v
  if NUMERIC_COLUMNS.contains c then toNumericCell v1 else v1

/-- What the weekly transform makes of one fetched record: the canonical
columns in order, each filled from the record and coerced. -/
def transformRow (r : PRow) : Row :=
  OUTPUT_COLUMNS.map (fun c => (c, coerceCol c (origCell r c)))

theorem transform_weekly_fromRecords (new : List PRow) (pf pt : String) :
    transform_weekly (DataFrame.fromRecords new) pf pt
      = ⟨OUTPUT_COLUMNS, new.map transformRow⟩ := by
  have hper : ∀ c ∈ OUTPUT_COLUMNS, c ≠ "period_from" ∧ c ≠ "period_to" := by decide
  simp only [transform_weekly, DataFrame.fromRecords, DataFrame.setCol, DataFrame.reindex,
    DataFrame.applyCols, List.map_map]
  congr 1
  apply List.map_congr_left
  intro r _
  simp only [Function.comp]
  rw [List.map_map, List.map_map]
  apply List.map_congr_left
  intro c hc
  obtain ⟨hp1, hp2⟩ := hper c hc
  simp only [Function.comp]
  rw [lookupCell_assocSet, if_neg hp2, lookupCell_assocSet, if_neg hp1, lookupCell_mapped]
  by_cases hd : c ∈ DATE_COLUMNS <;> by_cases hn : c ∈ NUMERIC_COLUMNS <;>
    simp [transformRow, coerceCol, hd, hn]

def isDtOrNa : Cell → Bool
  | .dt .. => true
  | .na => true
  | _ => false

def isNumOrNa : Cell → Bool
  | .num _ => true
  | .na => true
  | _ => false

theorem origCell_shape (r : PRow) (c : String) :
    origCell r c = .na ∨ ∃ s, origCell r c = .s s := by
  rw [origCell]
  cases List.lookup c r with
  | none => exact Or.inl rfl
  | some v =>
      cases v with
      | none => exact Or.inl rfl
      | some t => exact Or.inr ⟨t, rfl⟩

theorem isDtOrNa_toDatetimeCell (v : Cell) (h : v = .na ∨ ∃ s, v = .s s) :
    isDtOrNa (toDatetimeCell v) := by
  rcases h with rfl | ⟨s, rfl⟩
  · rfl
  · cases hd : dateParse s <;> simp [toDatetimeCell, hd, isDtOrNa]

theorem isNumOrNa_toNumericCell (v : Cell) (h : v = .na ∨ ∃ s, v = .s s) :
    isNumOrNa (toNumericCell v) := by
  rcases h with rfl | ⟨s, rfl⟩
  · rfl
  · cases hn : numParse s <;> simp [toNumericCell, hn, isNumOrNa]

theorem coerceCol_date {c : String} (hc : c ∈ DATE_COLUMNS) (v : Cell) :
    coerceCol c v = toDatetimeCell v := by
  have hdn : ∀ c ∈ DATE_COLUMNS, ¬ c ∈ NUMERIC_COLUMNS := by decide
  simp [coerceCol, hc, hdn c hc]

theorem coerceCol_num {c : String} (hc : c ∈ NUMERIC_COLUMNS) (v : Cell) :
    coerceCol c v = toNumericCell v := by
  have hnd : ∀ c ∈ NUMERIC_COLUMNS, ¬ c ∈ DATE_COLUMNS := by decide
  simp [coerceCol, hc, hnd c hc]

theorem coerceCol_na (c : String) : coerceCol c .na = .na := by
  simp only [coerceCol]
  split <;> split <;> rfl

/-- C3 (amended): the projection and the date/numeric coercions are applied
to the **new** rows only, before the merge: the transformed new dataframe has
exactly the canonical columns, each row is the canonical projection of its
fetched record (columns outside the canonical list, including the
just-added period columns, dropped; absent canonical columns null; date and
numeric columns coerced with null on failure, never an error) — and the
persisted dataset is the existing rows **unchanged** followed by these
transformed new rows (exactly the transformed new rows when no existing
dataset is found).  The spec's statement that the *final* (merged) dataset is
projected is refuted by `C3_projection_counterexample`. -/
theorem C3_projection_amended (new : List PRow) (pf pt : String)
    (findFile : String → String → Option DataFrame) (code folder : String) :
    transform_weekly (DataFrame.fromRecords new) pf pt
      = ⟨OUTPUT_COLUMNS, new.map transformRow⟩ ∧
    (∀ r : PRow, ∀ c ∈ DATE_COLUMNS, isDtOrNa (coerceCol c (origCell r c))) ∧
    (∀ r : PRow, ∀ c : String, List.lookup c r = none → coerceCol c (origCell r c) = .na) ∧
    (∀ r : PRow, ∀ c ∈ NUMERIC_COLUMNS, isNumOrNa (coerceCol c (origCell r c))) ∧
    (∀ e, findFile (code ++ "_invoices.xlsx") folder = some e →
      (upsert_company_excel findFile
        (transform_weekly (DataFrame.fromRecords new) pf pt) code folder).1.rows
        = e.rows ++ new.map transformRow) ∧
    (findFile (code ++ "_invoices.xlsx") folder = none →
      (upsert_company_excel findFile
        (transform_weekly (DataFrame.fromRecords new) pf pt) code folder).1
        = ⟨OUTPUT_COLUMNS, new.map transformRow⟩) := by
  refine ⟨transform_weekly_fromRecords new pf pt, ?_, ?_, ?_, ?_, ?_⟩
  · intro r c hc
    rw [coerceCol_date hc]
    exact isDtOrNa_toDatetimeCell _ (origCell_shape r c)
  · intro r c h
    rw [origCell, h]
    exact coerceCol_na c
  · intro r c hc
    rw [coerceCol_num hc]
    exact isNumOrNa_toNumericCell _ (origCell_shape r c)
  · intro e he
    rw [transform_weekly_fromRecords]
    simp [upsert_company_excel, he, DataFrame.concat]
  · intro h
    rw [transform_weekly_fromRecords]
    simp [upsert_company_excel, h]

/-- The projection-of-the-final-dataset operation as the spec words it
(this definition follows the spec's words, for comparison with the source's
behaviour). -/
def specProjection (df : DataFrame) : DataFrame :=
  ((df.reindex OUTPUT_COLUMNS).applyCols DATE_COLUMNS toDatetimeCell).applyCols
    NUMERIC_COLUMNS toNumericCell

/-- An existing stored dataset carrying a non-canonical column. -/
def c3Existing : DataFrame := ⟨["junk"], [[("junk", Cell.s "x")]]⟩

def c3New : List PRow := [[("invoiceNumber", some "I1")]]

def c3Drive (filename folder_id : String) : Option DataFrame :=
  if filename == "acme_invoices.xlsx" && folder_id == "folder1" then some c3Existing
  else none

def c3Persisted : DataFrame :=
  (upsert_company_excel c3Drive
    (transform_weekly (DataFrame.fromRecords c3New) "2024-01-01" "2024-01-07")
    "acme" "folder1").1

/-- C3 counterexample: with an existing dataset holding a non-canonical
column, the persisted dataset is **not** the projection of the final
(existing-plus-new) dataset — the existing rows are never re-projected, so
the `junk` column survives, while the projection would have dropped it. -/
theorem C3_projection_counterexample :
    c3Persisted.cols ≠ OUTPUT_COLUMNS ∧
    c3Persisted ≠
      specProjection (DataFrame.concat c3Existing (DataFrame.fromRecords c3New)) ∧
    (specProjection (DataFrame.concat c3Existing (DataFrame.fromRecords c3New))).cols
      = OUTPUT_COLUMNS := by
  decide

/-- C3 witness: the concrete one-record fetch is projected and coerced, and
the persisted dataset appends it to the untouched existing rows. -/
theorem C3_projection_witness :
    transform_weekly (DataFrame.fromRecords c3New) "2024-01-01" "2024-01-07"
      = ⟨OUTPUT_COLUMNS, c3New.map transformRow⟩ ∧
    c3Persisted.rows = c3Existing.rows ++ c3New.map transformRow :=
  have h := C3_projection_amended c3New "2024-01-01" "2024-01-07" c3Drive "acme" "folder1"
  ⟨h.1, h.2.2.2.2.1 c3Existing (by rfl)⟩

/-- A response with `currentPage` absent but `availablePage = "2"`. -/
def c6xRoot1 : XElem :=
  ⟨navTag "QueryInvoiceDigestResponse", none,
   .node (navTag "availablePage") (some "2") .nil
     (.node (navTag "invoiceDigest") none
       (.node (navTag "invoiceNumber") (some "X1") .nil .nil) .nil)⟩

/-- The second page's response, which terminates the loop. -/
def c6xRoot2 : XElem :=
  ⟨navTag "QueryInvoiceDigestResponse", none,
   .node (navTag "currentPage") (some "2") .nil
     (.node (navTag "availablePage") (some "2") .nil
       (.node (navTag "invoiceDigest") none
         (.node (navTag "invoiceNumber") (some "X2") .nil .nil) .nil))⟩

def c6xFromString : String → Except PyError XElem := fun t =>
  if t == "x1" then .ok c6xRoot1 else .ok c6xRoot2

def c6xEnv : Nat → HttpResp := fun k => if k == 0 then ⟨200, "x1"⟩ else ⟨200, "x2"⟩

/-- The number of requests a fetch outcome issued. -/
def fetchRequestCount : Option (Except FetchErr FetchOk) → Nat
  | some (.ok fo) => fo.requests.length
  | _ => 0

/-- C6 counterexample: a document in which the `currentPage` counter element
is absent (so the claim applies and the parser does default it to 1), but
whose `availablePage` is `"2"` — the loop then issues a **second** request,
refuting "consequently the paging loop terminates after exactly one request
for that company" as a statement about every document with a missing
counter. -/
theorem C6_missing_counter_counterexample :
    XForest.findAll (navTag "currentPage") c6xRoot1.children = [] ∧
    parse_response c6xFromString "x1" = .ok (digestRows c6xRoot1, 1, 2) ∧
    fetchRequestCount (fetch_all_invoices c6xFromString c6Ser c6Ids c6Times c6xEnv
      c6Company "2024-01-01" "2024-01-07" 2) = 2 ∧
    (2 : Nat) ≠ 1 :=
  ⟨rfl, rfl, rfl, by decide⟩
